import Mathlib

/-!
Shallow embedding of the OpenClaw Deploy security core: the security-level
catalog (`src/core/security/levels.ts`), the token generator
(`src/core/security/token-generator.ts`), the permission utilities
(`src/core/security/permissions.ts`), the audit/auto-fix pipeline
(`src/core/security/audit-runner.ts`), the config renderer
(`src/core/config/generator.ts`) and the standalone docker-compose generator
(`src/core/docker/compose-generator.ts`), together with theorems settling the
spec claims about them.
-/

set_option maxHeartbeats 1000000
set_option maxRecDepth 4096

namespace OpenClaw

/-! ## Enumerations from `src/types/index.ts` -/

inductive SecurityLevel where
  | L1 | L2 | L3
deriving DecidableEq, Repr

inductive GatewayBind where
  | loopback | lan | tailnet | custom
deriving DecidableEq, Repr

inductive DmPolicy where
  | pairing | allowlist | openPolicy | disabled
deriving DecidableEq, Repr

inductive GroupPolicy where
  | openPolicy | allowlist
deriving DecidableEq, Repr

inductive SandboxMode where
  | off | all | nonMain
deriving DecidableEq, Repr

inductive SandboxScope where
  | agent | session | shared
deriving DecidableEq, Repr

inductive WorkspaceAccess where
  | none | ro | rw
deriving DecidableEq, Repr

inductive RedactMode where
  | tools | all | none
deriving DecidableEq, Repr

inductive MdnsMode where
  | off | minimal | full
deriving DecidableEq, Repr

/-- The TS string value of a `SecurityLevel` key. -/
def SecurityLevel.key : SecurityLevel → String
  | .L1 => "L1"
  | .L2 => "L2"
  | .L3 => "L3"

/-- The TS string value of a `GatewayBind`. -/
def GatewayBind.key : GatewayBind → String
  | .loopback => "loopback"
  | .lan => "lan"
  | .tailnet => "tailnet"
  | .custom => "custom"

/-- The TS string value of a `DmPolicy`. -/
def DmPolicy.key : DmPolicy → String
  | .pairing => "pairing"
  | .allowlist => "allowlist"
  | .openPolicy => "open"
  | .disabled => "disabled"

/-- The TS string value of a `SandboxMode`. -/
def SandboxMode.key : SandboxMode → String
  | .off => "off"
  | .all => "all"
  | .nonMain => "non-main"

/-- The TS string value of a `SandboxScope`. -/
def SandboxScope.key : SandboxScope → String
  | .agent => "agent"
  | .session => "session"
  | .shared => "shared"

/-- The TS string value of a `WorkspaceAccess`. -/
def WorkspaceAccess.key : WorkspaceAccess → String
  | .none => "none"
  | .ro => "ro"
  | .rw => "rw"

/-- The TS string value of a `RedactMode`. -/
def RedactMode.key : RedactMode → String
  | .tools => "tools"
  | .all => "all"
  | .none => "none"

/-- The TS string value of an `MdnsMode`. -/
def MdnsMode.key : MdnsMode → String
  | .off => "off"
  | .minimal => "minimal"
  | .full => "full"

/-! ## `SecurityLevelDefinition` (src/types/index.ts) -/

structure DockerSecurityConfig where
  readOnlyRoot : Bool
  capDrop : List String
  capAdd : List String
  securityOpt : List String
  pidsLimit : Nat
  memory : String
  memorySwap : String
  cpus : String
  user : String
  tmpfs : List String
deriving DecidableEq, Repr

structure GatewaySpec where
  bind : GatewayBind
  authMode : String
deriving DecidableEq, Repr

structure ChannelsSpec where
  dmPolicy : DmPolicy
  groupPolicy : GroupPolicy
  requireMention : Bool
deriving DecidableEq, Repr

structure SandboxSpec where
  mode : SandboxMode
  scope : SandboxScope
  workspaceAccess : WorkspaceAccess
deriving DecidableEq, Repr

structure ToolsSpec where
  deny : List String
  allow : Option (List String)
deriving DecidableEq, Repr

structure LoggingSpec where
  redactSensitive : RedactMode
deriving DecidableEq, Repr

structure DiscoverySpec where
  mdnsMode : MdnsMode
deriving DecidableEq, Repr

structure FilePermissionsSpec where
  directory : String
  config : String
  credentials : String
deriving DecidableEq, Repr

structure SecurityLevelDefinition where
  name : String
  description : String
  gateway : GatewaySpec
  channels : ChannelsSpec
  sandbox : SandboxSpec
  tools : ToolsSpec
  docker : DockerSecurityConfig
  logging : LoggingSpec
  discovery : DiscoverySpec
  filePermissions : FilePermissionsSpec
deriving DecidableEq, Repr

/-! ## Canonical catalog `SECURITY_LEVELS` (src/core/security/levels.ts) -/

def levelL1 : SecurityLevelDefinition where
  name := "Solo / Local"
  description := "Single-user local development. Loopback-only, token auth, minimal restrictions."
  gateway := { bind := .loopback, authMode := "token" }
  channels := { dmPolicy := .pairing, groupPolicy := .allowlist, requireMention := false }
  sandbox := { mode := .off, scope := .shared, workspaceAccess := .rw }
  tools := { deny := ["exec", "process"], allow := none }
  docker := {
    readOnlyRoot := false
    capDrop := []
    capAdd := []
    securityOpt := []
    pidsLimit := 0
    memory := ""
    memorySwap := ""
    cpus := ""
    user := ""
    tmpfs := [] }
  logging := { redactSensitive := .tools }
  discovery := { mdnsMode := .minimal }
  filePermissions := { directory := "700", config := "600", credentials := "600" }

def levelL2 : SecurityLevelDefinition where
  name := "Team / Shared"
  description := "Multi-user shared deployment. Per-channel sessions, sandbox non-main, hardened Docker."
  gateway := { bind := .loopback, authMode := "token" }
  channels := { dmPolicy := .pairing, groupPolicy := .allowlist, requireMention := true }
  sandbox := { mode := .nonMain, scope := .agent, workspaceAccess := .rw }
  tools := { deny := ["browser", "canvas", "nodes", "cron", "exec", "process"], allow := none }
  docker := {
    readOnlyRoot := true
    capDrop := ["ALL"]
    capAdd := ["CHOWN", "SETUID", "SETGID"]
    securityOpt := ["no-new-privileges"]
    pidsLimit := 256
    memory := "1g"
    memorySwap := "2g"
    cpus := "2.0"
    user := "1000:1000"
    tmpfs := ["/tmp:size=100M"] }
  logging := { redactSensitive := .tools }
  discovery := { mdnsMode := .minimal }
  filePermissions := { directory := "700", config := "600", credentials := "600" }

def levelL3 : SecurityLevelDefinition where
  name := "Maximum"
  description := "Maximum security. Full sandbox, session-scoped, read-only workspace, allow-list tools only."
  gateway := { bind := .loopback, authMode := "token" }
  channels := { dmPolicy := .pairing, groupPolicy := .allowlist, requireMention := true }
  sandbox := { mode := .all, scope := .session, workspaceAccess := .ro }
  tools := { deny := ["browser", "canvas", "nodes", "cron", "exec", "process"],
             allow := some ["read", "sessions_list", "sessions_history"] }
  docker := {
    readOnlyRoot := true
    capDrop := ["ALL"]
    capAdd := ["CHOWN", "SETUID", "SETGID"]
    securityOpt := ["no-new-privileges"]
    pidsLimit := 256
    memory := "512m"
    memorySwap := "2g"
    cpus := "2.0"
    user := "1000:1000"
    tmpfs := ["/tmp:size=100M"] }
  logging := { redactSensitive := .all }
  discovery := { mdnsMode := .off }
  filePermissions := { directory := "700", config := "600", credentials := "600" }

/-- `SECURITY_LEVELS`, the canonical catalog keyed by the closed enum. -/
def SECURITY_LEVELS : SecurityLevel → SecurityLevelDefinition
  | .L1 => levelL1
  | .L2 => levelL2
  | .L3 => levelL3

/-- `getSecurityLevel` from `src/core/security/levels.ts`. -/
def getSecurityLevel (level : SecurityLevel) : SecurityLevelDefinition :=
  SECURITY_LEVELS level

def DEFAULT_SECURITY_LEVEL : SecurityLevel := .L2

/-- The canonical catalog as a string-keyed map, the shape under which the
config generator consumes it after a dynamic import. -/
def canonicalByKey : String → Option SecurityLevelDefinition := fun s =>
  if s = "L1" then some levelL1
  else if s = "L2" then some levelL2
  else if s = "L3" then some levelL3
  else none

/-! ## Strictness ranks (spec section 8) -/

def sandboxRank : SandboxMode → Nat
  | .off => 0
  | .nonMain => 1
  | .all => 2

def mdnsExposure : MdnsMode → Nat
  | .off => 0
  | .minimal => 1
  | .full => 2

def redactRank : RedactMode → Nat
  | .none => 0
  | .tools => 1
  | .all => 2

def workspacePermissiveness : WorkspaceAccess → Nat
  | .none => 0
  | .ro => 1
  | .rw => 2

def dmOpenness : DmPolicy → Nat
  | .disabled => 0
  | .allowlist => 1
  | .pairing => 1
  | .openPolicy => 2

/-! ## Fallback table and `getLevel` (src/core/config/generator.ts) -/

def fallbackL1 : SecurityLevelDefinition where
  name := "Basic"
  description := "Basic security for local development"
  gateway := { bind := .loopback, authMode := "token" }
  channels := { dmPolicy := .openPolicy, groupPolicy := .openPolicy, requireMention := false }
  sandbox := { mode := .off, scope := .shared, workspaceAccess := .rw }
  tools := { deny := [], allow := none }
  docker := {
    readOnlyRoot := false
    capDrop := ["NET_RAW"]
    capAdd := []
    securityOpt := []
    pidsLimit := 256
    memory := "2g"
    memorySwap := "2g"
    cpus := "2"
    user := "1000:1000"
    tmpfs := ["/tmp:size=256m"] }
  logging := { redactSensitive := .tools }
  discovery := { mdnsMode := .full }
  filePermissions := { directory := "0755", config := "0644", credentials := "0600" }

def fallbackL2 : SecurityLevelDefinition where
  name := "Standard"
  description := "Hardened defaults for private deployment"
  gateway := { bind := .loopback, authMode := "token" }
  channels := { dmPolicy := .pairing, groupPolicy := .allowlist, requireMention := true }
  sandbox := { mode := .all, scope := .agent, workspaceAccess := .ro }
  tools := { deny := ["shell", "computer", "file_write"], allow := none }
  docker := {
    readOnlyRoot := true
    capDrop := ["ALL"]
    capAdd := ["NET_BIND_SERVICE"]
    securityOpt := ["no-new-privileges:true"]
    pidsLimit := 128
    memory := "1g"
    memorySwap := "1g"
    cpus := "1"
    user := "65534:65534"
    tmpfs := ["/tmp:size=128m,noexec,nosuid"] }
  logging := { redactSensitive := .all }
  discovery := { mdnsMode := .minimal }
  filePermissions := { directory := "0750", config := "0640", credentials := "0600" }

def fallbackL3 : SecurityLevelDefinition where
  name := "Maximum"
  description := "Maximum security — highly restricted"
  gateway := { bind := .loopback, authMode := "token" }
  channels := { dmPolicy := .allowlist, groupPolicy := .allowlist, requireMention := true }
  sandbox := { mode := .all, scope := .session, workspaceAccess := .none }
  tools := { deny := ["shell", "computer", "file_write", "file_read", "browser"],
             allow := some ["chat"] }
  docker := {
    readOnlyRoot := true
    capDrop := ["ALL"]
    capAdd := []
    securityOpt := ["no-new-privileges:true", "seccomp=default"]
    pidsLimit := 64
    memory := "512m"
    memorySwap := "512m"
    cpus := "0.5"
    user := "65534:65534"
    tmpfs := ["/tmp:size=64m,noexec,nosuid,nodev"] }
  logging := { redactSensitive := .all }
  discovery := { mdnsMode := .off }
  filePermissions := { directory := "0700", config := "0600", credentials := "0400" }

/-- `FALLBACK_LEVELS` from `src/core/config/generator.ts`, string-keyed. -/
def FALLBACK_LEVELS : String → Option SecurityLevelDefinition := fun s =>
  if s = "L1" then some fallbackL1
  else if s = "L2" then some fallbackL2
  else if s = "L3" then some fallbackL3
  else none

/-- `getLevel` from `src/core/config/generator.ts`. `loaded` is the module-level
`securityLevels` cache: `some m` after a successful dynamic import of the
canonical catalog, `none` when the import failed (or has not happened). -/
def getLevel (loaded : Option (String → Option SecurityLevelDefinition))
    (level : String) : SecurityLevelDefinition :=
  match loaded with
  | some m =>
    match m level with
    | some d => d
    | none => (FALLBACK_LEVELS level).getD fallbackL2
  | none => (FALLBACK_LEVELS level).getD fallbackL2

/-! ## Token generator (src/core/security/token-generator.ts)

`randomBytes n` is modelled by an arbitrary byte list of length `n` whose
elements are below 256; the encoding steps are embedded exactly. -/

/-- The 16 lowercase hex digits, as indexed by `Buffer.toString('hex')`. -/
def hexDigits : List Char := "0123456789abcdef".data

def hexDigit (n : Nat) : Char := hexDigits.getD n '0'

/-- `Buffer.toString('hex')`: each byte becomes two lowercase hex digits. -/
def hexEncode (bytes : List Nat) : String :=
  ⟨bytes.foldr (fun b acc => hexDigit (b / 16) :: hexDigit (b % 16) :: acc) []⟩

/-- `generateGatewayToken()` = `randomBytes(32).toString('hex')`. -/
def generateGatewayToken (bytes : List Nat) : String := hexEncode bytes

/-- `generateEncryptionKey()` = `randomBytes(32).toString('hex')`. -/
def generateEncryptionKey (bytes : List Nat) : String := hexEncode bytes

/-- The base64url alphabet used by `Buffer.toString('base64url')`. -/
def b64Alphabet : List Char :=
  "ABCDEFGHIJKLMNOPQRSTUVWXYZabcdefghijklmnopqrstuvwxyz0123456789-_".data

def b64Char (n : Nat) : Char := b64Alphabet.getD n 'A'

/-- `Buffer.toString('base64url')`: 3-byte groups become 4 sextet characters;
a trailing group of 2 bytes becomes 3 characters and of 1 byte becomes 2
characters (no padding). -/
def b64urlEncode : List Nat → List Char
  | b1 :: b2 :: b3 :: rest =>
    b64Char (b1 / 4) ::
    b64Char ((b1 % 4) * 16 + b2 / 16) ::
    b64Char ((b2 % 16) * 4 + b3 / 64) ::
    b64Char (b3 % 64) ::
    b64urlEncode rest
  | [b1, b2] =>
    [b64Char (b1 / 4), b64Char ((b1 % 4) * 16 + b2 / 16), b64Char ((b2 % 16) * 4)]
  | [b1] =>
    [b64Char (b1 / 4), b64Char ((b1 % 4) * 16)]
  | [] => []

/-- The byte count `Math.ceil((length * 3) / 4)` requested from `randomBytes`
by `generateRandomPassword`. -/
def passwordByteCount (length : Nat) : Nat := (3 * length + 3) / 4

/-- `generateRandomPassword(length)` =
`randomBytes(ceil(length*3/4)).toString('base64url').slice(0, length)`. -/
def generateRandomPassword (length : Nat) (bytes : List Nat) : String :=
  ⟨(b64urlEncode bytes).take length⟩

/-! ## Permission utilities (src/core/security/permissions.ts)

The POSIX directory view is a record of the outcomes of the `stat`/`readdir`
calls `verifyPermissions` performs; `Except` models a thrown filesystem
error. -/

structure DirEntry where
  name : String
  isFile : Bool
deriving DecidableEq, Repr

structure PosixDir where
  statDir : Except String Nat
  readdir : Except String (List DirEntry)
  statFile : String → Except String Nat

structure VerifyResult where
  valid : Bool
  issues : List String
deriving DecidableEq, Repr

/-- JS `n.toString(8)`. -/
def octalStr (n : Nat) : String := ⟨Nat.toDigits 8 n⟩

/-- JS `s.endsWith(suffix)`, as a structural suffix test on the characters. -/
def strEndsWith (s suffix : String) : Bool := suffix.data.isSuffixOf s.data

/-- The file filter in both `setSecurePermissions` and `verifyPermissions`:
regular files whose name ends in `.json` or `.env`. -/
def relevantEntry (e : DirEntry) : Bool :=
  e.isFile && (strEndsWith e.name ".json" || strEndsWith e.name ".env")

/-- The per-file loop of `verifyPermissions`: accumulated issue strings plus
the message of the first thrown `stat` error, if any (the loop stops there,
keeping issues already pushed — JS `try`/`catch` semantics). -/
def verifyFilesLoop (dirPath : String) (statFile : String → Except String Nat) :
    List DirEntry → List String × Option String
  | [] => ([], none)
  | e :: rest =>
    if relevantEntry e then
      match statFile e.name with
      | .error msg => ([], some msg)
      | .ok m =>
        let fileMode := m &&& 0o777
        let here :=
          if fileMode ≠ 0o600 then
            [s!"File {dirPath}/{e.name} has mode {octalStr fileMode}, expected 600"]
          else []
        let (restIssues, err) := verifyFilesLoop dirPath statFile rest
        (here ++ restIssues, err)
    else verifyFilesLoop dirPath statFile rest

/-- `verifyPermissions(dirPath)`. A thrown error anywhere in the `try` block is
caught and appended as a `Failed to verify permissions: …` issue. -/
def verifyPermissions (isWin : Bool) (dirPath : String) (d : PosixDir) : VerifyResult :=
  if isWin then ⟨true, []⟩
  else
    let (issues, errOpt) :=
      match d.statDir with
      | .error msg => ([], some msg)
      | .ok m =>
        let dirMode := m &&& 0o777
        let dirIssues :=
          if dirMode ≠ 0o700 then
            [s!"Directory {dirPath} has mode {octalStr dirMode}, expected 700"]
          else []
        match d.readdir with
        | .error msg => (dirIssues, some msg)
        | .ok entries =>
          let (fileIssues, err) := verifyFilesLoop dirPath d.statFile entries
          (dirIssues ++ fileIssues, err)
    let issues :=
      match errOpt with
      | some msg => issues ++ [s!"Failed to verify permissions: {msg}"]
      | none => issues
    ⟨issues.isEmpty, issues⟩

/-- `parseInt(s, 8)` on the octal mode strings of the catalog. -/
def parseOctal (s : String) : Nat :=
  s.data.foldl (fun acc c => acc * 8 + (c.toNat - '0'.toNat)) 0

/-- An error-free snapshot of the install directory, for stating what
`setSecurePermissions` does to the modes `verifyPermissions` later reads. -/
structure FsState where
  dirMode : Nat
  entries : List DirEntry
  fileModes : String → Nat

/-- View an error-free snapshot as the outcome record of the syscalls. -/
def FsState.toPosix (fs : FsState) : PosixDir where
  statDir := .ok fs.dirMode
  readdir := .ok fs.entries
  statFile := fun n => .ok (fs.fileModes n)

/-- `setSecurePermissions(dirPath, securityLevel)` on a POSIX platform:
`chmod` the directory to the level's `filePermissions.directory` and every
`.json`/`.env` regular file listed by `readdir` to `filePermissions.config`. -/
def setSecurePermissions (securityLevel : SecurityLevel) (fs : FsState) : FsState :=
  let levelDef := getSecurityLevel securityLevel
  let dirMode := parseOctal levelDef.filePermissions.directory
  let fileMode := parseOctal levelDef.filePermissions.config
  { fs with
    dirMode := dirMode
    fileModes := fun n =>
      if fs.entries.any (fun e => relevantEntry e && e.name == n) then fileMode
      else fs.fileModes n }

/-! ## JSON values

A small JSON AST for the structured config the generator serializes, and for
the opaque per-channel config blobs. -/

inductive Jx where
  | str : String → Jx
  | num : Nat → Jx
  | bool : Bool → Jx
  | arr : List Jx → Jx
  | obj : List (String × Jx) → Jx
deriving Repr

/-- Field lookup on a JSON object value. -/
def Jx.getField (j : Jx) (key : String) : Option Jx :=
  match j with
  | .obj fields => fields.lookup key
  | _ => none

/-! ## `DeploymentConfig` (src/types/index.ts) -/

structure OllamaConfig where
  baseUrl : String
  model : String
  keepAlive : Option String
deriving Repr

structure RoutingConfig where
  mode : String
  primary : String
  fallback : Option String
  rules : Option Jx
deriving Repr

structure LlmConfig where
  provider : String
  apiKey : String
  model : Option String
  ollama : Option OllamaConfig
  routing : Option RoutingConfig
deriving Repr

structure ChannelSelection where
  id : String
  enabled : Bool
  token : Option String
  config : Option Jx
deriving Repr

inductive DeployMode where
  | docker | native
deriving DecidableEq, Repr

structure DeploymentSpec where
  mode : DeployMode
  workspace : String
  installDir : String
deriving DecidableEq, Repr

structure GatewayConfigSpec where
  bind : GatewayBind
  port : Nat
deriving DecidableEq, Repr

structure TlsConfig where
  enabled : Bool
  domain : Option String
  email : Option String
deriving DecidableEq, Repr

structure TrainingConfig where
  enabled : Bool
  dataDir : String
  autoCollect : Bool
  minEntriesForTraining : Nat
  autoTrain : Bool
  baseModel : String
deriving DecidableEq, Repr

structure DeploymentConfig where
  llm : LlmConfig
  channels : List ChannelSelection
  securityLevel : SecurityLevel
  gateway : GatewayConfigSpec
  deployment : DeploymentSpec
  tls : Option TlsConfig
  training : Option TrainingConfig
deriving Repr

structure GeneratedSecrets where
  gatewayToken : String
  masterEncryptionKey : String
deriving DecidableEq, Repr

/-! ## Audit runner (src/core/security/audit-runner.ts) -/

inductive AuditSeverity where
  | critical | warning | info | pass
deriving DecidableEq, Repr

inductive OverallStatus where
  | pass | warning | critical
deriving DecidableEq, Repr

structure AuditResult where
  severity : AuditSeverity
  check : String
  message : String
  autoFixable : Bool
  remediation : Option String
  fixed : Option Bool
deriving DecidableEq, Repr

structure AuditReport where
  timestamp : String
  results : List AuditResult
  overallStatus : OverallStatus
  autoFixedCount : Nat
deriving DecidableEq, Repr

/-- The `result(...)` helper: `fixed` is absent from every fresh result. -/
def mkResult (severity : AuditSeverity) (check message : String)
    (autoFixable : Bool) (remediation : Option String := none) : AuditResult :=
  { severity, check, message, autoFixable, remediation, fixed := none }

def checkGatewayAuth (_config : DeploymentConfig) (secrets : GeneratedSecrets) : AuditResult :=
  if secrets.gatewayToken = "" then
    mkResult .critical "gateway-auth"
      "Gateway authentication is not enabled — no token configured." true
      (some "Generate a gateway token using the token generator.")
  else
    mkResult .pass "gateway-auth" "Gateway authentication is enabled." false

/-- `checkTokenEntropy`. JS computes `length / 2` as a float; the predicate
`length / 2 < 32` agrees with Nat division (both mean `length < 64`), and the
byte count shown in the message is the floored value. -/
def checkTokenEntropy (secrets : GeneratedSecrets) : AuditResult :=
  let tokenBytes := secrets.gatewayToken.length / 2
  if tokenBytes < 32 then
    mkResult .critical "token-entropy"
      s!"Gateway token has {tokenBytes} bytes of entropy, minimum is 32." true
      (some "Regenerate the gateway token with at least 32 bytes.")
  else
    mkResult .pass "token-entropy"
      s!"Gateway token has {tokenBytes} bytes of entropy." false

def checkBindAddress (config : DeploymentConfig) : AuditResult :=
  if config.gateway.bind = .custom then
    mkResult .critical "bind-address"
      "Gateway is using a custom bind address — verify it is not 0.0.0.0." true
      (some "Set gateway bind to loopback, lan, or tailnet instead of custom.")
  else
    let b := config.gateway.bind.key
    mkResult .pass "bind-address" s!"Gateway bind is set to {b}." false

def checkFilePermissions (isWin : Bool) (installDir : String) (d : PosixDir) : AuditResult :=
  let v := verifyPermissions isWin installDir d
  if v.valid = false then
    let joined := String.intercalate "; " v.issues
    mkResult .critical "file-permissions"
      s!"File permission issues found: {joined}" true
      (some "Run setSecurePermissions to correct file modes.")
  else
    mkResult .pass "file-permissions" "File permissions are correct." false

def checkDmPolicy (config : DeploymentConfig) : AuditResult :=
  let levelDef := getSecurityLevel config.securityLevel
  if levelDef.channels.dmPolicy = .openPolicy then
    mkResult .warning "dm-policy"
      "DM policy is set to open — any user can message the bot." true
      (some "Set DM policy to pairing or allowlist.")
  else
    let p := levelDef.channels.dmPolicy.key
    mkResult .pass "dm-policy" s!"DM policy is set to {p}." false

def checkSandbox (config : DeploymentConfig) : AuditResult :=
  let levelDef := getSecurityLevel config.securityLevel
  if levelDef.sandbox.mode = .off then
    mkResult .warning "sandbox-enabled"
      "Sandbox is disabled — code execution is unrestricted." true
      (some "Enable sandbox mode (non-main or all).")
  else
    let m := levelDef.sandbox.mode.key
    mkResult .pass "sandbox-enabled" s!"Sandbox mode is {m}." false

def checkMdns (config : DeploymentConfig) : AuditResult :=
  let levelDef := getSecurityLevel config.securityLevel
  if levelDef.discovery.mdnsMode = .full then
    mkResult .info "mdns-mode"
      "mDNS is set to full — the service is broadly discoverable." true
      (some "Set mDNS to minimal or off.")
  else
    let m := levelDef.discovery.mdnsMode.key
    mkResult .pass "mdns-mode" s!"mDNS mode is {m}." false

def checkLogRedaction (config : DeploymentConfig) : AuditResult :=
  let levelDef := getSecurityLevel config.securityLevel
  if levelDef.logging.redactSensitive = .none then
    mkResult .info "log-redaction"
      "Log redaction is disabled — sensitive data may appear in logs." true
      (some "Enable log redaction (tools or all).")
  else
    let r := levelDef.logging.redactSensitive.key
    mkResult .pass "log-redaction" s!"Log redaction is set to {r}." false

/-- `runSecurityAudit(config, secrets, installDir)`. `d` is the on-disk state
read by the file-permissions check, `isWin` the platform flag, and `now` the
`new Date().toISOString()` value. -/
def runSecurityAudit (config : DeploymentConfig) (secrets : GeneratedSecrets)
    (installDir : String) (d : PosixDir) (isWin : Bool) (now : String) : AuditReport :=
  let results : List AuditResult := [
    checkGatewayAuth config secrets,
    checkTokenEntropy secrets,
    checkBindAddress config,
    checkFilePermissions isWin installDir d,
    checkDmPolicy config,
    checkSandbox config,
    checkMdns config,
    checkLogRedaction config]
  let hasCritical := results.any (fun r => r.severity == .critical)
  let hasWarning := results.any (fun r => r.severity == .warning)
  let overallStatus : OverallStatus :=
    if hasCritical then .critical
    else if hasWarning then .warning
    else .pass
  { timestamp := now, results, overallStatus, autoFixedCount := 0 }

/-- `autoFixAuditResults(results, config, installDir)`. `setPerms` is the
behaviour of the `setSecurePermissions` call (its `Except.error` models a
thrown filesystem error, which the function does not catch). The second
component counts how many times the permission setter was invoked. -/
def autoFixAuditResults (setPerms : String → SecurityLevel → Except String Unit)
    (config : DeploymentConfig) (installDir : String) :
    List AuditResult → Except String (List AuditResult × Nat)
  | [] => .ok ([], 0)
  | r :: rest =>
    if r.severity = .pass ∨ r.autoFixable = false then
      match autoFixAuditResults setPerms config installDir rest with
      | .error e => .error e
      | .ok (l, n) => .ok (r :: l, n)
    else if r.check = "gateway-auth" then
      match autoFixAuditResults setPerms config installDir rest with
      | .error e => .error e
      | .ok (l, n) =>
        .ok ({ r with fixed := some true, message := "Gateway auth — auto-fix: regenerate token required." } :: l, n)
    else if r.check = "token-entropy" then
      match autoFixAuditResults setPerms config installDir rest with
      | .error e => .error e
      | .ok (l, n) =>
        .ok ({ r with fixed := some true, message := "Token entropy — auto-fix: regenerate token required." } :: l, n)
    else if r.check = "bind-address" then
      match autoFixAuditResults setPerms config installDir rest with
      | .error e => .error e
      | .ok (l, n) =>
        .ok ({ r with fixed := some true, message := "Bind address — auto-fix: set to loopback." } :: l, n)
    else if r.check = "file-permissions" then
      match setPerms installDir config.securityLevel with
      | .error e => .error e
      | .ok _ =>
        match autoFixAuditResults setPerms config installDir rest with
        | .error e => .error e
        | .ok (l, n) =>
          .ok ({ r with fixed := some true, message := "File permissions corrected." } :: l, n + 1)
    else if r.check = "dm-policy" then
      match autoFixAuditResults setPerms config installDir rest with
      | .error e => .error e
      | .ok (l, n) =>
        .ok ({ r with fixed := some true, message := "DM policy — auto-fix: set to pairing." } :: l, n)
    else if r.check = "sandbox-enabled" then
      match autoFixAuditResults setPerms config installDir rest with
      | .error e => .error e
      | .ok (l, n) =>
        .ok ({ r with fixed := some true, message := "Sandbox — auto-fix: set to non-main." } :: l, n)
    else if r.check = "mdns-mode" then
      match autoFixAuditResults setPerms config installDir rest with
      | .error e => .error e
      | .ok (l, n) =>
        .ok ({ r with fixed := some true, message := "mDNS — auto-fix: set to minimal." } :: l, n)
    else if r.check = "log-redaction" then
      match autoFixAuditResults setPerms config installDir rest with
      | .error e => .error e
      | .ok (l, n) =>
        .ok ({ r with fixed := some true, message := "Log redaction — auto-fix: set to tools." } :: l, n)
    else
      match autoFixAuditResults setPerms config installDir rest with
      | .error e => .error e
      | .ok (l, n) => .ok (r :: l, n)

/-! ## `JSON.stringify(obj, null, 2)` -/

def jsSpaces (n : Nat) : String := ⟨List.replicate n ' '⟩

def hex4 (n : Nat) : String :=
  ⟨[hexDigit (n / 4096 % 16), hexDigit (n / 256 % 16), hexDigit (n / 16 % 16), hexDigit (n % 16)]⟩

/-- The string-escaping of `JSON.stringify`. -/
def escChar (c : Char) : String :=
  if c = '"' then "\\\""
  else if c = '\\' then "\\\\"
  else if c = '\x08' then "\\b"
  else if c = '\x09' then "\\t"
  else if c = '\x0a' then "\\n"
  else if c = '\x0c' then "\\f"
  else if c = '\x0d' then "\\r"
  else if c.toNat < 32 then "\\u" ++ hex4 c.toNat
  else String.singleton c

def escString (s : String) : String := String.join (s.data.map escChar)

mutual

/-- `JSON.stringify(v, null, 2)` at nesting indentation `ind`. -/
def renderJx (ind : Nat) : Jx → String
  | .str s => "\"" ++ escString s ++ "\""
  | .num n => toString n
  | .bool b => if b then "true" else "false"
  | .arr [] => "[]"
  | .arr (x :: xs) => "[\n" ++ renderItems (ind + 2) x xs ++ "\n" ++ jsSpaces ind ++ "]"
  | .obj [] => "\x7b\x7d"
  | .obj ((k, v) :: fs) =>
    "\x7b\n" ++ renderFields (ind + 2) k v fs ++ "\n" ++ jsSpaces ind ++ "\x7d"
termination_by j => sizeOf j

def renderItems (ind : Nat) (x : Jx) : List Jx → String
  | [] => jsSpaces ind ++ renderJx ind x
  | y :: ys => jsSpaces ind ++ renderJx ind x ++ ",\n" ++ renderItems ind y ys
termination_by l => sizeOf x + sizeOf l

def renderFields (ind : Nat) (k : String) (v : Jx) : List (String × Jx) → String
  | [] => jsSpaces ind ++ "\"" ++ escString k ++ "\": " ++ renderJx ind v
  | (k2, v2) :: gs =>
    jsSpaces ind ++ "\"" ++ escString k ++ "\": " ++ renderJx ind v ++ ",\n" ++
      renderFields ind k2 v2 gs
termination_by l => sizeOf v + sizeOf l

end

namespace ConfigGen

/-! ## Config renderer (src/core/config/generator.ts) -/

/-- `resolveBindAddress`. -/
def resolveBindAddress : GatewayBind → String
  | .loopback => "127.0.0.1"
  | .lan => "0.0.0.0"
  | .tailnet => "100.64.0.0"
  | .custom => "0.0.0.0"

/-- `apiKeyEnvVar`. -/
def apiKeyEnvVar (provider : String) : String :=
  if provider = "anthropic" then "ANTHROPIC_API_KEY"
  else if provider = "openai" then "OPENAI_API_KEY"
  else if provider = "gemini" then "GOOGLE_AI_API_KEY"
  else if provider = "openrouter" then "OPENROUTER_API_KEY"
  else "LLM_API_KEY"

/-- The object literal serialized by `generateOpenClawJson`, with the optional
spreads in source order. -/
def buildOpenClawObj (config : DeploymentConfig) (levelDef : SecurityLevelDefinition) : Jx :=
  .obj (
    [("gateway", .obj [
        ("bind", .str (resolveBindAddress config.gateway.bind)),
        ("port", .num config.gateway.port),
        ("auth", .obj [("mode", .str "token"), ("token", .str "${OPENCLAW_GATEWAY_TOKEN}")])]),
     ("agents", .obj [
        ("sandbox", .obj [
          ("mode", .str levelDef.sandbox.mode.key),
          ("scope", .str levelDef.sandbox.scope.key),
          ("workspaceAccess", .str levelDef.sandbox.workspaceAccess.key)])]),
     ("channels", .arr ((config.channels.filter (fun ch => ch.enabled)).map (fun ch =>
        .obj ([("id", .str ch.id), ("enabled", .bool true)]
          ++ (match ch.token with | some t => [("token", .str t)] | none => [])
          ++ (match ch.config with | some j => [("config", j)] | none => []))))),
     ("tools", .obj ([("deny", .arr (levelDef.tools.deny.map .str))]
        ++ (match levelDef.tools.allow with
            | some a => [("allow", .arr (a.map .str))]
            | none => [])))]
    ++ (if config.llm.provider = "ollama" then
          match config.llm.ollama with
          | some o =>
            [("ollama", .obj ([("baseUrl", .str o.baseUrl), ("model", .str o.model)]
              ++ (match o.keepAlive with | some k => [("keepAlive", .str k)] | none => [])))]
          | none => []
        else [])
    ++ (match config.llm.routing with
        | some rt =>
          if rt.mode = "hybrid" then
            [("routing", .obj ([("mode", .str rt.mode), ("primary", .str rt.primary)]
              ++ (match rt.fallback with | some f => [("fallback", .str f)] | none => [])
              ++ (match rt.rules with | some j => [("rules", j)] | none => [])))]
          else []
        | none => [])
    ++ [("session", .obj [("idleTimeoutMinutes", .num 30), ("maxConcurrent", .num 4)]),
        ("logging", .obj [("level", .str "info"),
                          ("redactSensitive", .str levelDef.logging.redactSensitive.key)]),
        ("discovery", .obj [("mdns", .str levelDef.discovery.mdnsMode.key)])]
    ++ (match config.training with
        | some t =>
          if t.enabled then
            [("training", .obj [
               ("enabled", .bool true),
               ("dataDir", .str t.dataDir),
               ("autoCollect", .bool t.autoCollect),
               ("minEntries", .num t.minEntriesForTraining),
               ("autoTrain", .bool t.autoTrain),
               ("baseModel", .str t.baseModel)])]
          else []
        | none => []))

/-- The comment header prefixed to the JSON body. -/
def jsonHeader (config : DeploymentConfig) (levelDef : SecurityLevelDefinition) : String :=
  String.intercalate "\n" [
    "// OpenClaw configuration — generated by openclaw-deploy",
    "// Security level: " ++ (config.securityLevel.key ++ (" (" ++ (levelDef.name ++ ")"))),
    "// Environment variables are interpolated at runtime.",
    ""]

/-- `generateOpenClawJson(config, _secrets, levelDef)`: the secrets argument is
unused by the source. -/
def generateOpenClawJson (config : DeploymentConfig) (_secrets : GeneratedSecrets)
    (levelDef : SecurityLevelDefinition) : String :=
  jsonHeader config levelDef ++ renderJx 0 (buildOpenClawObj config levelDef) ++ "\n"

/-- The line list joined by `generateEnvFile`. -/
def envLines (config : DeploymentConfig) (secrets : GeneratedSecrets) : List String :=
  ["# OpenClaw environment — generated by openclaw-deploy",
   "# Keep this file private (chmod 600).",
   "",
   "OPENCLAW_GATEWAY_TOKEN=" ++ secrets.gatewayToken]
  ++ (if config.llm.provider = "ollama" then
        let baseUrl :=
          match config.llm.ollama with
          | some o => o.baseUrl
          | none => "http://localhost:11434"
        let model :=
          match config.llm.ollama with
          | some o => o.model
          | none =>
            match config.llm.model with
            | some m => m
            | none => "llama3.3:70b"
        ["OLLAMA_BASE_URL=" ++ baseUrl, "OLLAMA_MODEL=" ++ model]
        ++ (if config.deployment.mode = .docker then
              ["OLLAMA_HOST=http://host.docker.internal:11434"]
            else [])
      else
        [apiKeyEnvVar config.llm.provider ++ ("=" ++ config.llm.apiKey)])
  ++ ["OPENCLAW_GATEWAY_PORT=" ++ toString config.gateway.port,
      "OPENCLAW_INSTALL_DIR=" ++ config.deployment.installDir,
      "OPENCLAW_WORKSPACE=" ++ config.deployment.workspace,
      ""]

/-- `generateEnvFile(config, secrets)`. -/
def generateEnvFile (config : DeploymentConfig) (secrets : GeneratedSecrets) : String :=
  String.intercalate "\n" (envLines config secrets)

/-! The `docker-compose.yml` line list (`generateDockerCompose` in
`generator.ts`), split into the source's push groups. -/

def composeBase (config : DeploymentConfig) (docker : DockerSecurityConfig) : List String :=
  ["# Generated by openclaw-deploy — do not edit manually",
   "# Security level: " ++ config.securityLevel.key,
   "",
   "services:",
   "  openclaw:",
   "    image: ghcr.io/openclaw/openclaw:latest",
   "    container_name: openclaw",
   "    restart: unless-stopped",
   "    user: \"" ++ (docker.user ++ "\""),
   "    ports:",
   "      - \"" ++ (resolveBindAddress config.gateway.bind ++ (":" ++ (toString config.gateway.port ++ (":" ++ (toString config.gateway.port ++ "\""))))),
   "    volumes:",
   "      - " ++ (config.deployment.installDir ++ "/openclaw.json:/app/config/openclaw.json:ro"),
   "      - openclaw-data:/app/data"]

def composeTraining (config : DeploymentConfig) : List String :=
  match config.training with
  | some t => if t.enabled then ["      - " ++ (t.dataDir ++ ":/app/training")] else []
  | none => []

def composeWorkspace (config : DeploymentConfig) (levelDef : SecurityLevelDefinition) : List String :=
  if levelDef.sandbox.workspaceAccess ≠ .none then
    let roFlag := if levelDef.sandbox.workspaceAccess = .ro then ":ro" else ""
    ["      - " ++ (config.deployment.workspace ++ (":/app/workspace" ++ roFlag))]
  else []

def composeEnv (config : DeploymentConfig) : List String :=
  ["    env_file:",
   "      - " ++ (config.deployment.installDir ++ "/.env"),
   "    environment:",
   "      - OPENCLAW_GATEWAY_PORT=${OPENCLAW_GATEWAY_PORT}"]
  ++ (if config.llm.provider = "ollama" then
        ["      - OLLAMA_HOST=${OLLAMA_HOST}",
         "      - OLLAMA_MODEL=${OLLAMA_MODEL}",
         "    extra_hosts:",
         "      - \"host.docker.internal:host-gateway\""]
      else
        ["      - " ++ (apiKeyEnvVar config.llm.provider ++ ("=$\x7b" ++ (apiKeyEnvVar config.llm.provider ++ "\x7d")))])

def composeReadOnly (docker : DockerSecurityConfig) : List String :=
  if docker.readOnlyRoot then ["    read_only: true"] else []

def composeCapDrop (docker : DockerSecurityConfig) : List String :=
  if docker.capDrop.length > 0 then
    "    cap_drop:" :: docker.capDrop.map (fun c => "      - " ++ c)
  else []

def composeCapAdd (docker : DockerSecurityConfig) : List String :=
  if docker.capAdd.length > 0 then
    "    cap_add:" :: docker.capAdd.map (fun c => "      - " ++ c)
  else []

def composeSecOpt (docker : DockerSecurityConfig) : List String :=
  if docker.securityOpt.length > 0 then
    "    security_opt:" :: docker.securityOpt.map (fun o => "      - " ++ o)
  else []

def composeTmpfs (docker : DockerSecurityConfig) : List String :=
  if docker.tmpfs.length > 0 then
    "    tmpfs:" :: docker.tmpfs.map (fun t => "      - " ++ t)
  else []

def composeTail (docker : DockerSecurityConfig) (port : Nat) : List String :=
  ["    deploy:",
   "      resources:",
   "        limits:",
   "          memory: " ++ docker.memory,
   "          cpus: \"" ++ (docker.cpus ++ "\""),
   "    pids_limit: " ++ toString docker.pidsLimit,
   "    healthcheck:",
   "      test: [\"CMD\", \"curl\", \"-f\", \"http://127.0.0.1:" ++ (toString port ++ "/health\"]"),
   "      interval: 30s",
   "      timeout: 10s",
   "      retries: 3",
   "      start_period: 15s",
   "    logging:",
   "      driver: json-file",
   "      options:",
   "        max-size: \"10m\"",
   "        max-file: \"3\"",
   "",
   "volumes:",
   "  openclaw-data:",
   "    driver: local",
   ""]

/-- All lines of the compose file, in source push order. -/
def composeLines (config : DeploymentConfig) (levelDef : SecurityLevelDefinition) : List String :=
  composeBase config levelDef.docker
  ++ composeTraining config
  ++ composeWorkspace config levelDef
  ++ composeEnv config
  ++ composeReadOnly levelDef.docker
  ++ composeCapDrop levelDef.docker
  ++ composeCapAdd levelDef.docker
  ++ composeSecOpt levelDef.docker
  ++ composeTmpfs levelDef.docker
  ++ composeTail levelDef.docker config.gateway.port

/-- `generateDockerCompose(config, _secrets, levelDef)` from `generator.ts`. -/
def generateDockerCompose (config : DeploymentConfig) (_secrets : GeneratedSecrets)
    (levelDef : SecurityLevelDefinition) : String :=
  String.intercalate "\n" (composeLines config levelDef)

/-- `generateCaddyfile(config)`: `undefined` unless TLS is enabled with a
(truthy) domain. -/
def generateCaddyfile (config : DeploymentConfig) : Option String :=
  match config.tls with
  | none => none
  | some tls =>
    if tls.enabled = false then none
    else
      match tls.domain with
      | none => none
      | some d =>
        if d = "" then none
        else some (String.intercalate "\n" (
          [d ++ " \x7b",
           "  reverse_proxy 127.0.0.1:" ++ toString config.gateway.port]
          ++ (match tls.email with
              | some e => if e = "" then [] else ["  tls " ++ e]
              | none => [])
          ++ ["  header \x7b",
              "    Strict-Transport-Security \"max-age=31536000; includeSubDomains\"",
              "    X-Content-Type-Options \"nosniff\"",
              "    X-Frame-Options \"DENY\"",
              "  \x7d",
              "\x7d",
              ""]))

structure GeneratedFiles where
  openclawJson : String
  envFile : String
  dockerComposeYml : Option String
  caddyfile : Option String
deriving Repr

/-- `generateOpenClawConfig(config, secrets)`; `loaded` is the module-level
`securityLevels` cache after the lazy `loadSecurityLevels()` attempt (`none`
when the canonical module failed to load). -/
def generateOpenClawConfig (loaded : Option (String → Option SecurityLevelDefinition))
    (config : DeploymentConfig) (secrets : GeneratedSecrets) : GeneratedFiles :=
  let levelDef := getLevel loaded config.securityLevel.key
  { openclawJson := generateOpenClawJson config secrets levelDef
    envFile := generateEnvFile config secrets
    dockerComposeYml :=
      if config.deployment.mode = .docker then
        some (generateDockerCompose config secrets levelDef)
      else none
    caddyfile := generateCaddyfile config }

end ConfigGen

namespace ComposeGen

/-! ## Standalone compose generator (src/core/docker/compose-generator.ts)

A second, independently maintained docker-compose renderer. Unlike the one in
`generator.ts`, it always emits the `cap_drop`/`cap_add`/`security_opt`/`tmpfs`
keys and substitutes hardcoded defaults when the level's lists are empty. -/

def generateDockerCompose (config : DeploymentConfig) (_secrets : GeneratedSecrets)
    (securityLevel : SecurityLevel) : String :=
  let docker := (SECURITY_LEVELS securityLevel).docker
  let port := config.gateway.port
  let readOnly := docker.readOnlyRoot
  let capDrop := docker.capDrop
  let capAdd := if docker.capAdd.length > 0 then docker.capAdd else ["CHOWN", "SETUID", "SETGID"]
  let securityOpt :=
    if docker.securityOpt.length > 0 then docker.securityOpt.map (fun s => s ++ ":true")
    else ["no-new-privileges:true"]
  let memory := if docker.memory = "" then "1g" else docker.memory
  let cpus := if docker.cpus = "" then "2.0" else docker.cpus
  let user := if docker.user = "" then "1000:1000" else docker.user
  let tmpfs := if docker.tmpfs.length > 0 then docker.tmpfs else ["/tmp:size=100M"]
  let yaml :=
    "version: '3.8'\n\nservices:\n  openclaw-gateway:\n    image: alpine/openclaw:latest\n" ++
    "    container_name: openclaw-gateway\n    restart: unless-stopped\n" ++
    "    user: \"" ++ (user ++ "\"\n") ++
    "    ports:\n      - \"127.0.0.1:" ++ (toString port ++ (":" ++ (toString port ++ "\"\n"))) ++
    "    volumes:\n      - \"$\x7bOPENCLAW_HOME:-~/.openclaw\x7d:/home/node/.openclaw\"\n" ++
    "      - \"$\x7bOPENCLAW_WORKSPACE:-~/.openclaw/workspace\x7d:/home/node/.openclaw/workspace\"\n" ++
    "    environment:\n      OPENCLAW_CONFIG_PATH: /home/node/.openclaw/openclaw.json\n" ++
    "      OPENCLAW_GATEWAY_PORT: \"" ++ (toString port ++ "\"") ++
    (if config.llm.provider = "ollama" then
       "\n      OLLAMA_HOST: \"http://host.docker.internal:11434\""
     else "") ++
    "\n    env_file:\n      - .env" ++
    (if config.llm.provider = "ollama" then
       "\n    extra_hosts:\n      - \"host.docker.internal:host-gateway\""
     else "") ++
    "\n    read_only: " ++ ((if readOnly then "true" else "false") ++ "\n") ++
    "    cap_drop:\n" ++
    (String.intercalate "\n" (capDrop.map (fun c => "      - " ++ c)) ++ "\n") ++
    "    cap_add:\n" ++
    (String.intercalate "\n" (capAdd.map (fun c => "      - " ++ c)) ++ "\n") ++
    "    security_opt:\n" ++
    (String.intercalate "\n" (securityOpt.map (fun s => "      - " ++ s)) ++ "\n") ++
    "    tmpfs:\n" ++
    (String.intercalate "\n" (tmpfs.map (fun t => "      - \"" ++ (t ++ "\""))) ++ "\n") ++
    "    deploy:\n      resources:\n        limits:\n" ++
    "          memory: " ++ (memory ++ "\n") ++
    "          cpus: \"" ++ (cpus ++ "\"\n") ++
    "    healthcheck:\n      test: [\"CMD\", \"wget\", \"--spider\", \"-q\", \"http://localhost:" ++
    (toString port ++ "/health\"]\n") ++
    "      interval: 30s\n      timeout: 10s\n      retries: 3\n      start_period: 15s\n" ++
    "    logging:\n      driver: json-file\n      options:\n        max-size: \"10m\"\n        max-file: \"3\""
  let yaml :=
    match config.tls with
    | some tls =>
      if tls.enabled then
        match tls.domain with
        | some d =>
          if d = "" then yaml
          else
            yaml ++
            "\n\n  caddy:\n    image: caddy:2-alpine\n    container_name: openclaw-caddy\n" ++
            "    restart: unless-stopped\n    ports:\n      - \"80:80\"\n      - \"443:443\"\n" ++
            "    volumes:\n      - ./Caddyfile:/etc/caddy/Caddyfile:ro\n      - caddy_data:/data\n" ++
            "      - caddy_config:/config\n    depends_on:\n      openclaw-gateway:\n" ++
            "        condition: service_healthy\n\nvolumes:\n  caddy_data:\n  caddy_config:"
        | none => yaml
      else yaml
    | none => yaml
  yaml ++ "\n"

end ComposeGen

/-! ## Theorems -/

/-- Claim C6: the canonical catalog has exactly the three levels L1, L2, L3,
and strictness is monotonic across them: sandbox rank is nondecreasing
(off=0 < non-main=1 < all=2), mDNS exposure is nonincreasing
(full > minimal > off), log redaction is nondecreasing (none < tools < all),
workspace permissiveness is nonincreasing (rw above ro above none), and DM
openness is nonincreasing. -/
theorem security_levels_exactly_three_and_monotonic :
    (∀ l : SecurityLevel, l = .L1 ∨ l = .L2 ∨ l = .L3)
    ∧ ((SecurityLevel.L1 : SecurityLevel) ≠ .L2 ∧ (SecurityLevel.L1 : SecurityLevel) ≠ .L3
        ∧ (SecurityLevel.L2 : SecurityLevel) ≠ .L3)
    ∧ (sandboxRank (SECURITY_LEVELS .L1).sandbox.mode
        ≤ sandboxRank (SECURITY_LEVELS .L2).sandbox.mode
      ∧ sandboxRank (SECURITY_LEVELS .L2).sandbox.mode
        ≤ sandboxRank (SECURITY_LEVELS .L3).sandbox.mode)
    ∧ (mdnsExposure (SECURITY_LEVELS .L2).discovery.mdnsMode
        ≤ mdnsExposure (SECURITY_LEVELS .L1).discovery.mdnsMode
      ∧ mdnsExposure (SECURITY_LEVELS .L3).discovery.mdnsMode
        ≤ mdnsExposure (SECURITY_LEVELS .L2).discovery.mdnsMode)
    ∧ (redactRank (SECURITY_LEVELS .L1).logging.redactSensitive
        ≤ redactRank (SECURITY_LEVELS .L2).logging.redactSensitive
      ∧ redactRank (SECURITY_LEVELS .L2).logging.redactSensitive
        ≤ redactRank (SECURITY_LEVELS .L3).logging.redactSensitive)
    ∧ (workspacePermissiveness (SECURITY_LEVELS .L2).sandbox.workspaceAccess
        ≤ workspacePermissiveness (SECURITY_LEVELS .L1).sandbox.workspaceAccess
      ∧ workspacePermissiveness (SECURITY_LEVELS .L3).sandbox.workspaceAccess
        ≤ workspacePermissiveness (SECURITY_LEVELS .L2).sandbox.workspaceAccess)
    ∧ (dmOpenness (SECURITY_LEVELS .L2).channels.dmPolicy
        ≤ dmOpenness (SECURITY_LEVELS .L1).channels.dmPolicy
      ∧ dmOpenness (SECURITY_LEVELS .L3).channels.dmPolicy
        ≤ dmOpenness (SECURITY_LEVELS .L2).channels.dmPolicy) := by
  refine ⟨fun l => ?_, ?_⟩
  · cases l <;> simp
  · decide

/-- Claim C10: `getLevel` never fails on an unrecognized level string — with the
canonical table loaded (or with no table at all), any string other than
L1/L2/L3 resolves to the fallback table's L2 entry; when the canonical module
failed to load, every level is rendered from the hand-maintained fallback
table, whose entries differ from the canonical catalog, and
`generateOpenClawConfig` still produces files. -/
theorem getLevel_unknown_falls_back_to_L2 :
    (∀ s : String, s ≠ "L1" → s ≠ "L2" → s ≠ "L3" →
      getLevel (some canonicalByKey) s = fallbackL2 ∧ getLevel none s = fallbackL2)
    ∧ (getLevel none "L1" = fallbackL1 ∧ getLevel none "L2" = fallbackL2
        ∧ getLevel none "L3" = fallbackL3)
    ∧ (fallbackL1 ≠ levelL1 ∧ fallbackL2 ≠ levelL2 ∧ fallbackL3 ≠ levelL3)
    ∧ (∀ config secrets, (ConfigGen.generateOpenClawConfig none config secrets).openclawJson
        = ConfigGen.generateOpenClawJson config secrets
            (getLevel none config.securityLevel.key)) := by
  refine ⟨fun s h1 h2 h3 => ?_, by decide, by decide, fun config secrets => rfl⟩
  constructor
  · simp [getLevel, canonicalByKey, FALLBACK_LEVELS, h1, h2, h3]
  · simp [getLevel, FALLBACK_LEVELS, h1, h2, h3]

/-- Witness for C10 at the concrete unknown level string L9. -/
theorem getLevel_unknown_falls_back_to_L2_witness :
    getLevel (some canonicalByKey) "L9" = fallbackL2 ∧ getLevel none "L9" = fallbackL2 :=
  getLevel_unknown_falls_back_to_L2.1 "L9" (by decide) (by decide) (by decide)

/-! ### Token generator lemmas (C8) -/

/-- A lowercase hex character, the alphabet of the spec's regex. -/
def hexAlphaChar (c : Char) : Prop := ('0' ≤ c ∧ c ≤ '9') ∨ ('a' ≤ c ∧ c ≤ 'f')

/-- A URL-safe base64 character, the alphabet of the spec's regex. -/
def urlSafeChar (c : Char) : Prop :=
  ('A' ≤ c ∧ c ≤ 'Z') ∨ ('a' ≤ c ∧ c ≤ 'z') ∨ ('0' ≤ c ∧ c ≤ '9') ∨ c = '-' ∨ c = '_'

instance (c : Char) : Decidable (hexAlphaChar c) := by unfold hexAlphaChar; infer_instance

instance (c : Char) : Decidable (urlSafeChar c) := by unfold urlSafeChar; infer_instance

theorem hexDigit_hexAlpha (n : Nat) : hexAlphaChar (hexDigit n) := by
  by_cases h : n < 16
  · unfold hexDigit
    interval_cases n <;> decide
  · have : hexDigits.length ≤ n := by
      have : hexDigits.length = 16 := by decide
      omega
    unfold hexDigit
    rw [List.getD_eq_default _ _ this]
    decide

theorem hexEncode_data (bytes : List Nat) :
    (hexEncode bytes).data
      = bytes.foldr (fun b acc => hexDigit (b / 16) :: hexDigit (b % 16) :: acc) [] := rfl

theorem hexEncode_length (bytes : List Nat) : (hexEncode bytes).length = 2 * bytes.length := by
  show (hexEncode bytes).data.length = 2 * bytes.length
  rw [hexEncode_data]
  induction bytes with
  | nil => rfl
  | cons b rest ih => simp [ih]; omega

theorem hexEncode_chars (bytes : List Nat) :
    ∀ c ∈ (hexEncode bytes).data, hexAlphaChar c := by
  rw [hexEncode_data]
  induction bytes with
  | nil => intro c hc; cases hc
  | cons b rest ih =>
    intro c hc
    rcases hc with _ | ⟨_, _ | ⟨_, h⟩⟩
    · exact hexDigit_hexAlpha _
    · exact hexDigit_hexAlpha _
    · exact ih c h

theorem b64Char_urlSafe (n : Nat) : urlSafeChar (b64Char n) := by
  by_cases h : n < 64
  · unfold b64Char
    interval_cases n <;> decide
  · have : b64Alphabet.length ≤ n := by
      have : b64Alphabet.length = 64 := by decide
      omega
    unfold b64Char
    rw [List.getD_eq_default _ _ this]
    decide

theorem b64urlEncode_length : ∀ l : List Nat,
    (b64urlEncode l).length = (4 * l.length + 2) / 3
  | [] => by simp [b64urlEncode]
  | [_] => by simp [b64urlEncode]
  | [_, _] => by simp [b64urlEncode]
  | _ :: _ :: _ :: rest => by
    have ih := b64urlEncode_length rest
    simp only [b64urlEncode, List.length_cons, ih]
    omega

theorem b64urlEncode_chars : ∀ (l : List Nat), ∀ c ∈ b64urlEncode l, urlSafeChar c
  | [] => by intro c hc; cases hc
  | [b] => by
    intro c hc
    rcases hc with _ | ⟨_, _ | ⟨_, h⟩⟩ <;> first | exact b64Char_urlSafe _ | cases h
  | [b1, b2] => by
    intro c hc
    rcases hc with _ | ⟨_, _ | ⟨_, _ | ⟨_, h⟩⟩⟩ <;> first | exact b64Char_urlSafe _ | cases h
  | b1 :: b2 :: b3 :: rest => by
    intro c hc
    have ih := b64urlEncode_chars rest
    rcases hc with _ | ⟨_, _ | ⟨_, _ | ⟨_, _ | ⟨_, h⟩⟩⟩⟩
    · exact b64Char_urlSafe _
    · exact b64Char_urlSafe _
    · exact b64Char_urlSafe _
    · exact b64Char_urlSafe _
    · exact ih c h

/-- Claim C8: `generateGatewayToken` and `generateEncryptionKey` hex-encode
their 32 random bytes into 64 lowercase-hex characters, and
`generateRandomPassword(n)` base64url-encodes `ceil(n*3/4)` random bytes and
truncates to exactly `n` URL-safe characters. -/
theorem token_generator_shapes :
    (∀ bytes : List Nat, bytes.length = 32 →
      (generateGatewayToken bytes).length = 64
      ∧ ∀ c ∈ (generateGatewayToken bytes).data, hexAlphaChar c)
    ∧ (∀ bytes : List Nat, bytes.length = 32 →
      (generateEncryptionKey bytes).length = 64
      ∧ ∀ c ∈ (generateEncryptionKey bytes).data, hexAlphaChar c)
    ∧ (∀ (n : Nat) (bytes : List Nat), 1 ≤ n → bytes.length = passwordByteCount n →
      (generateRandomPassword n bytes).length = n
      ∧ ∀ c ∈ (generateRandomPassword n bytes).data, urlSafeChar c) := by
  refine ⟨fun bytes h => ⟨?_, hexEncode_chars bytes⟩,
          fun bytes h => ⟨?_, hexEncode_chars bytes⟩,
          fun n bytes hn hb => ⟨?_, ?_⟩⟩
  · rw [generateGatewayToken, hexEncode_length, h]
  · rw [generateEncryptionKey, hexEncode_length, h]
  · show ((b64urlEncode bytes).take n).length = n
    have hlen := b64urlEncode_length bytes
    rw [hb, passwordByteCount] at hlen
    rw [List.length_take, hlen]
    omega
  · intro c hc
    have hc' : c ∈ b64urlEncode bytes := List.take_subset _ _ hc
    exact b64urlEncode_chars bytes c hc'

/-- Witness for C8 at concrete byte sequences: 32 zero bytes for the token and
key, and `ceil(24*3/4) = 18` maximal bytes for a 24-character password. -/
theorem token_generator_shapes_witness :
    ((generateGatewayToken (List.replicate 32 0)).length = 64
      ∧ ∀ c ∈ (generateGatewayToken (List.replicate 32 0)).data, hexAlphaChar c)
    ∧ ((generateRandomPassword 24 (List.replicate 18 255)).length = 24
      ∧ ∀ c ∈ (generateRandomPassword 24 (List.replicate 18 255)).data, urlSafeChar c) :=
  ⟨token_generator_shapes.1 (List.replicate 32 0) (by decide),
   token_generator_shapes.2.2 24 (List.replicate 18 255) (by decide) (by decide)⟩

/-! ### Permission lemmas (C4, C7) -/

theorem verifyFilesLoop_ok_snd (p : String) (modes : String → Nat) :
    ∀ es : List DirEntry, (verifyFilesLoop p (fun n => .ok (modes n)) es).2 = none := by
  intro es
  induction es with
  | nil => rfl
  | cons e rest ih =>
    by_cases h : relevantEntry e = true
    · simp [verifyFilesLoop, h, ih]
    · simp [verifyFilesLoop, h, ih]

theorem verifyFilesLoop_ok_length (p : String) (modes : String → Nat) :
    ∀ es : List DirEntry,
      (verifyFilesLoop p (fun n => .ok (modes n)) es).1.length
        = es.countP (fun e => relevantEntry e && ((modes e.name &&& 0o777) != 0o600)) := by
  intro es
  induction es with
  | nil => rfl
  | cons e rest ih =>
    by_cases h : relevantEntry e = true
    · by_cases hm : modes e.name &&& 0o777 = 0o600
      · simp [verifyFilesLoop, h, hm, ih, List.countP_cons]
      · simp [verifyFilesLoop, h, hm, ih, List.countP_cons]
    · simp [verifyFilesLoop, h, ih, List.countP_cons]

theorem verifyFilesLoop_ok_nil_iff (p : String) (modes : String → Nat) :
    ∀ es : List DirEntry,
      (verifyFilesLoop p (fun n => .ok (modes n)) es).1 = []
        ↔ ∀ e ∈ es, relevantEntry e = true → modes e.name &&& 0o777 = 0o600 := by
  intro es
  induction es with
  | nil => simp [verifyFilesLoop]
  | cons e rest ih =>
    by_cases h : relevantEntry e = true
    · by_cases hm : modes e.name &&& 0o777 = 0o600
      · simp [verifyFilesLoop, h, hm, ih]
      · constructor
        · intro hnil
          exfalso
          simp [verifyFilesLoop, h, hm] at hnil
        · intro hall
          exact absurd (hall e (by simp) h) hm
    · simp only [Bool.not_eq_true] at h
      simp [verifyFilesLoop, h, ih]

/-- The closed form of `verifyPermissions` on an error-free snapshot. -/
theorem verifyPermissions_fsstate (p : String) (fs : FsState) :
    verifyPermissions false p fs.toPosix =
      { valid := ((if fs.dirMode &&& 0o777 ≠ 0o700 then
                    [s!"Directory {p} has mode {octalStr (fs.dirMode &&& 0o777)}, expected 700"]
                  else [])
                 ++ (verifyFilesLoop p (fun n => .ok (fs.fileModes n)) fs.entries).1).isEmpty
        issues := (if fs.dirMode &&& 0o777 ≠ 0o700 then
                    [s!"Directory {p} has mode {octalStr (fs.dirMode &&& 0o777)}, expected 700"]
                  else [])
                 ++ (verifyFilesLoop p (fun n => .ok (fs.fileModes n)) fs.entries).1 } := by
  rcases hloop : verifyFilesLoop p (fun n => .ok (fs.fileModes n)) fs.entries with ⟨is1, err⟩
  have herr : err = none := by
    have hsnd := verifyFilesLoop_ok_snd p fs.fileModes fs.entries
    rw [hloop] at hsnd
    exact hsnd
  subst herr
  simp [verifyPermissions, FsState.toPosix, hloop]

/-- Claim C4: on a POSIX platform, `verifyPermissions` reports invalid exactly
when the directory mode differs from 0700 or some `.json`/`.env` regular file
has a mode other than 0600, with one issue per mismatch; the expected modes
are this fixed bar — in particular, after `setSecurePermissions` with any
security level, verification passes. -/
theorem verifyPermissions_fixed_bar (p : String) (fs : FsState) :
    ((verifyPermissions false p fs.toPosix).valid = false ↔
      (fs.dirMode &&& 0o777 ≠ 0o700
        ∨ ∃ e ∈ fs.entries, relevantEntry e = true ∧ fs.fileModes e.name &&& 0o777 ≠ 0o600))
    ∧ (verifyPermissions false p fs.toPosix).issues.length
        = ((if fs.dirMode &&& 0o777 ≠ 0o700 then 1 else 0)
            + fs.entries.countP
                (fun e => relevantEntry e && ((fs.fileModes e.name &&& 0o777) != 0o600)))
    ∧ ∀ lvl : SecurityLevel,
        (verifyPermissions false p (setSecurePermissions lvl fs).toPosix).valid = true := by
  have hiff := verifyFilesLoop_ok_nil_iff p fs.fileModes fs.entries
  refine ⟨?_, ?_, ?_⟩
  · rw [verifyPermissions_fsstate]
    by_cases hd : fs.dirMode &&& 0o777 ≠ 0o700
    · simp [hd, List.isEmpty_eq_false]
    · simp only [ne_eq, not_not] at hd
      simp only [hd, ne_eq, not_true_eq_false, if_false, List.nil_append,
        List.isEmpty_eq_false, false_or]
      constructor
      · intro hne
        by_contra hnex
        push_neg at hnex
        apply hne
        apply hiff.mpr
        intro e he hrel
        exact hnex e he hrel
      · rintro ⟨e, he, hrel, hbad⟩ hnil
        exact hbad (hiff.mp hnil e he hrel)
  · rw [verifyPermissions_fsstate]
    simp only [List.length_append, verifyFilesLoop_ok_length]
    by_cases hd : fs.dirMode &&& 0o777 ≠ 0o700
    · simp [hd]
    · simp [hd]
  · intro lvl
    rw [verifyPermissions_fsstate]
    have hdir : (setSecurePermissions lvl fs).dirMode &&& 0o777 = 0o700 := by
      show parseOctal (getSecurityLevel lvl).filePermissions.directory &&& 0o777 = 0o700
      cases lvl <;> decide
    have hfiles : (verifyFilesLoop p
        (fun n => .ok ((setSecurePermissions lvl fs).fileModes n))
        (setSecurePermissions lvl fs).entries).1 = [] := by
      rw [verifyFilesLoop_ok_nil_iff]
      intro e he hrel
      have hany : fs.entries.any (fun e2 => relevantEntry e2 && e2.name == e.name) = true := by
        rw [List.any_eq_true]
        exact ⟨e, he, by simp [hrel]⟩
      show (if fs.entries.any (fun e2 => relevantEntry e2 && e2.name == e.name)
              then parseOctal (getSecurityLevel lvl).filePermissions.config
              else fs.fileModes e.name) &&& 0o777 = 0o600
      simp only [hany, if_true]
      cases lvl <;> decide
    simp [hdir, hfiles]

/-- Witness for C4 at a concrete snapshot: directory mode 0755 and one
`config.json` file with mode 0644 — invalid with exactly two issues — and
validity after applying `setSecurePermissions` for level L2. -/
theorem verifyPermissions_fixed_bar_witness :
    ((verifyPermissions false "/opt"
        (FsState.toPosix ⟨0o755, [⟨"config.json", true⟩], fun _ => 0o644⟩)).valid = false
      ↔ ((0o755 : Nat) &&& 0o777 ≠ 0o700
          ∨ ∃ e ∈ [(⟨"config.json", true⟩ : DirEntry)], relevantEntry e = true
              ∧ (0o644 : Nat) &&& 0o777 ≠ 0o600))
    ∧ (verifyPermissions false "/opt"
        (FsState.toPosix ⟨0o755, [⟨"config.json", true⟩], fun _ => 0o644⟩)).issues.length = 2
    ∧ (verifyPermissions false "/opt"
        (FsState.toPosix
          (setSecurePermissions .L2 ⟨0o755, [⟨"config.json", true⟩], fun _ => 0o644⟩))).valid
        = true := by
  have h := verifyPermissions_fixed_bar "/opt" ⟨0o755, [⟨"config.json", true⟩], fun _ => 0o644⟩
  refine ⟨h.1, ?_, h.2.2 .L2⟩
  rw [h.2.1]
  decide

/-! ### Audit check shape lemmas (C1, C7, C9) -/

theorem checkGatewayAuth_shape (config : DeploymentConfig) (secrets : GeneratedSecrets) :
    (checkGatewayAuth config secrets).check = "gateway-auth"
    ∧ ((checkGatewayAuth config secrets).severity = .critical
        ∨ (checkGatewayAuth config secrets).severity = .pass)
    ∧ ((checkGatewayAuth config secrets).autoFixable = true
        ↔ (checkGatewayAuth config secrets).severity ≠ .pass) := by
  unfold checkGatewayAuth
  split <;> simp [mkResult]

theorem checkTokenEntropy_shape (secrets : GeneratedSecrets) :
    (checkTokenEntropy secrets).check = "token-entropy"
    ∧ ((checkTokenEntropy secrets).severity = .critical
        ∨ (checkTokenEntropy secrets).severity = .pass)
    ∧ ((checkTokenEntropy secrets).autoFixable = true
        ↔ (checkTokenEntropy secrets).severity ≠ .pass) := by
  unfold checkTokenEntropy
  dsimp only
  split <;> simp [mkResult]

theorem checkBindAddress_shape (config : DeploymentConfig) :
    (checkBindAddress config).check = "bind-address"
    ∧ ((checkBindAddress config).severity = .critical
        ∨ (checkBindAddress config).severity = .pass)
    ∧ ((checkBindAddress config).autoFixable = true
        ↔ (checkBindAddress config).severity ≠ .pass) := by
  unfold checkBindAddress
  dsimp only
  split <;> simp [mkResult]

theorem checkFilePermissions_shape (isWin : Bool) (installDir : String) (d : PosixDir) :
    (checkFilePermissions isWin installDir d).check = "file-permissions"
    ∧ ((checkFilePermissions isWin installDir d).severity = .critical
        ∨ (checkFilePermissions isWin installDir d).severity = .pass)
    ∧ ((checkFilePermissions isWin installDir d).autoFixable = true
        ↔ (checkFilePermissions isWin installDir d).severity ≠ .pass) := by
  unfold checkFilePermissions
  dsimp only
  split <;> simp [mkResult]

theorem checkDmPolicy_shape (config : DeploymentConfig) :
    (checkDmPolicy config).check = "dm-policy"
    ∧ ((checkDmPolicy config).severity = .warning
        ∨ (checkDmPolicy config).severity = .pass)
    ∧ ((checkDmPolicy config).autoFixable = true
        ↔ (checkDmPolicy config).severity ≠ .pass) := by
  unfold checkDmPolicy
  dsimp only
  split <;> simp [mkResult]

theorem checkSandbox_shape (config : DeploymentConfig) :
    (checkSandbox config).check = "sandbox-enabled"
    ∧ ((checkSandbox config).severity = .warning
        ∨ (checkSandbox config).severity = .pass)
    ∧ ((checkSandbox config).autoFixable = true
        ↔ (checkSandbox config).severity ≠ .pass) := by
  unfold checkSandbox
  dsimp only
  split <;> simp [mkResult]

theorem checkMdns_shape (config : DeploymentConfig) :
    (checkMdns config).check = "mdns-mode"
    ∧ ((checkMdns config).severity = .info
        ∨ (checkMdns config).severity = .pass)
    ∧ ((checkMdns config).autoFixable = true
        ↔ (checkMdns config).severity ≠ .pass) := by
  unfold checkMdns
  dsimp only
  split <;> simp [mkResult]

theorem checkLogRedaction_shape (config : DeploymentConfig) :
    (checkLogRedaction config).check = "log-redaction"
    ∧ ((checkLogRedaction config).severity = .info
        ∨ (checkLogRedaction config).severity = .pass)
    ∧ ((checkLogRedaction config).autoFixable = true
        ↔ (checkLogRedaction config).severity ≠ .pass) := by
  unfold checkLogRedaction
  dsimp only
  split <;> simp [mkResult]

/-- The fixed registration order of the eight audit checks. -/
def auditCheckIds : List String :=
  ["gateway-auth", "token-entropy", "bind-address", "file-permissions",
   "dm-policy", "sandbox-enabled", "mdns-mode", "log-redaction"]

theorem runSecurityAudit_check_order (config : DeploymentConfig) (secrets : GeneratedSecrets)
    (installDir : String) (d : PosixDir) (isWin : Bool) (now : String) :
    (runSecurityAudit config secrets installDir d isWin now).results.map (fun r => r.check)
      = auditCheckIds := by
  simp only [runSecurityAudit, List.map, auditCheckIds]
  rw [(checkGatewayAuth_shape config secrets).1, (checkTokenEntropy_shape secrets).1,
    (checkBindAddress_shape config).1, (checkFilePermissions_shape isWin installDir d).1,
    (checkDmPolicy_shape config).1, (checkSandbox_shape config).1,
    (checkMdns_shape config).1, (checkLogRedaction_shape config).1]

/-- Claim C7: when reading permission bits fails (the `stat` of the directory,
the `readdir`, or a per-file `stat` raises), `verifyPermissions` catches the
error and converts it into an issue string, the file-permissions check becomes
a critical finding, and `runSecurityAudit` still returns a full eight-check
report instead of propagating the exception. -/
theorem audit_catches_permission_read_errors (p : String) (d : PosixDir) (msg : String)
    (h : d.statDir = .error msg
       ∨ (∃ m, d.statDir = .ok m ∧ d.readdir = .error msg)
       ∨ (∃ m es, d.statDir = .ok m ∧ d.readdir = .ok es
            ∧ (verifyFilesLoop p d.statFile es).2 = some msg)) :
    (verifyPermissions false p d).valid = false
    ∧ s!"Failed to verify permissions: {msg}" ∈ (verifyPermissions false p d).issues
    ∧ (checkFilePermissions false p d).severity = .critical
    ∧ (checkFilePermissions false p d).check = "file-permissions"
    ∧ ∀ (config : DeploymentConfig) (secrets : GeneratedSecrets) (now : String),
        (runSecurityAudit config secrets p d false now).results.map (fun r => r.check)
          = auditCheckIds := by
  have hshape : ∃ pre, (verifyPermissions false p d).issues
      = pre ++ [s!"Failed to verify permissions: {msg}"] := by
    rcases h with h1 | ⟨m, h1, h2⟩ | ⟨m, es, h1, h2, h3⟩
    · exact ⟨[], by simp [verifyPermissions, h1]⟩
    · refine ⟨if m &&& 0o777 ≠ 0o700 then
          [s!"Directory {p} has mode {octalStr (m &&& 0o777)}, expected 700"] else [], ?_⟩
      simp [verifyPermissions, h1, h2]
    · refine ⟨(if m &&& 0o777 ≠ 0o700 then
          [s!"Directory {p} has mode {octalStr (m &&& 0o777)}, expected 700"] else [])
          ++ (verifyFilesLoop p d.statFile es).1, ?_⟩
      rcases hloop : verifyFilesLoop p d.statFile es with ⟨is1, err⟩
      rw [hloop] at h3
      simp only at h3
      subst h3
      simp [verifyPermissions, h1, h2, hloop]
  obtain ⟨pre, hpre⟩ := hshape
  have hvalid : (verifyPermissions false p d).valid = false := by
    have : (verifyPermissions false p d).valid = (verifyPermissions false p d).issues.isEmpty := by
      unfold verifyPermissions
      simp
    rw [this, hpre]
    simp [List.isEmpty_eq_false]
  refine ⟨hvalid, ?_, ?_, (checkFilePermissions_shape false p d).1,
    fun config secrets now => runSecurityAudit_check_order config secrets p d false now⟩
  · rw [hpre]
    simp
  · unfold checkFilePermissions
    simp [hvalid, mkResult]

/-- Witness for C7 at a concrete state whose directory `stat` throws EACCES. -/
theorem audit_catches_permission_read_errors_witness :
    (verifyPermissions false "/opt"
        ⟨.error "EACCES", .error "EACCES", fun _ => .error "EACCES"⟩).valid = false
    ∧ s!"Failed to verify permissions: EACCES" ∈ (verifyPermissions false "/opt"
        ⟨.error "EACCES", .error "EACCES", fun _ => .error "EACCES"⟩).issues
    ∧ (checkFilePermissions false "/opt"
        ⟨.error "EACCES", .error "EACCES", fun _ => .error "EACCES"⟩).severity = .critical := by
  have h := audit_catches_permission_read_errors "/opt"
    ⟨.error "EACCES", .error "EACCES", fun _ => .error "EACCES"⟩ "EACCES" (Or.inl rfl)
  exact ⟨h.1, h.2.1, h.2.2.1⟩

/-- The severity-dominance aggregation of `runSecurityAudit`, as a function of
the result list. -/
def overallOf (rs : List AuditResult) : OverallStatus :=
  if rs.any (fun r => r.severity == .critical) then .critical
  else if rs.any (fun r => r.severity == .warning) then .warning
  else .pass

theorem overallOf_spec (rs : List AuditResult) :
    (overallOf rs = .critical ↔ ∃ r ∈ rs, r.severity = .critical)
    ∧ (overallOf rs = .warning ↔
        ((¬ ∃ r ∈ rs, r.severity = .critical) ∧ ∃ r ∈ rs, r.severity = .warning))
    ∧ ((∀ r ∈ rs, r.severity = .info ∨ r.severity = .pass) → overallOf rs = .pass) := by
  have hc : rs.any (fun r => r.severity == .critical) = true
      ↔ ∃ r ∈ rs, r.severity = .critical := by
    simp [List.any_eq_true]
  have hw : rs.any (fun r => r.severity == .warning) = true
      ↔ ∃ r ∈ rs, r.severity = .warning := by
    simp [List.any_eq_true]
  by_cases h1 : rs.any (fun r => r.severity == .critical) = true
  · refine ⟨?_, ?_, ?_⟩
    · simp [overallOf, h1, hc.mp h1]
    · simp only [overallOf, h1, if_true]
      constructor
      · intro habs
        exact absurd habs (by decide)
      · rintro ⟨hnc, _⟩
        exact absurd (hc.mp h1) hnc
    · intro hall
      obtain ⟨r, hr, hcrit⟩ := hc.mp h1
      rcases hall r hr with h | h <;> rw [hcrit] at h <;> exact absurd h (by decide)
  · have h1' : rs.any (fun r => r.severity == .critical) = false := by
      simpa using h1
    have hnc : ¬ ∃ r ∈ rs, r.severity = .critical := fun hex => h1 (hc.mpr hex)
    by_cases h2 : rs.any (fun r => r.severity == .warning) = true
    · refine ⟨?_, ?_, ?_⟩
      · simp only [overallOf, h1', Bool.false_eq_true, if_false, h2, if_true]
        constructor
        · intro habs
          exact absurd habs (by decide)
        · intro hex
          exact absurd hex hnc
      · simp only [overallOf, h1', Bool.false_eq_true, if_false, h2, if_true]
        simp [hnc, hw.mp h2]
      · intro hall
        obtain ⟨r, hr, hwarn⟩ := hw.mp h2
        rcases hall r hr with h | h <;> rw [hwarn] at h <;> exact absurd h (by decide)
    · have h2' : rs.any (fun r => r.severity == .warning) = false := by
        simpa using h2
      have hnw : ¬ ∃ r ∈ rs, r.severity = .warning := fun hex => h2 (hw.mpr hex)
      refine ⟨?_, ?_, ?_⟩
      · simp only [overallOf, h1', Bool.false_eq_true, if_false, h2', if_false]
        constructor
        · intro habs
          exact absurd habs (by decide)
        · intro hex
          exact absurd hex hnc
      · simp only [overallOf, h1', Bool.false_eq_true, if_false, h2', if_false]
        constructor
        · intro habs
          exact absurd habs (by decide)
        · rintro ⟨_, hex⟩
          exact absurd hex hnw
      · intro _
        simp [overallOf, h1', h2']

/-- Claim C1: `runSecurityAudit` always returns exactly eight results in the
fixed registration order (no short-circuiting), and `overallStatus` is derived
by severity dominance: critical if any critical result, else warning if any
warning, else pass — an info result never escalates it. -/
theorem audit_order_and_status_dominance (config : DeploymentConfig)
    (secrets : GeneratedSecrets) (installDir : String) (d : PosixDir)
    (isWin : Bool) (now : String) :
    (runSecurityAudit config secrets installDir d isWin now).results.map (fun r => r.check)
      = auditCheckIds
    ∧ (runSecurityAudit config secrets installDir d isWin now).results.length = 8
    ∧ ((runSecurityAudit config secrets installDir d isWin now).overallStatus = .critical
        ↔ ∃ r ∈ (runSecurityAudit config secrets installDir d isWin now).results,
            r.severity = .critical)
    ∧ ((runSecurityAudit config secrets installDir d isWin now).overallStatus = .warning
        ↔ ((¬ ∃ r ∈ (runSecurityAudit config secrets installDir d isWin now).results,
              r.severity = .critical)
            ∧ ∃ r ∈ (runSecurityAudit config secrets installDir d isWin now).results,
                r.severity = .warning))
    ∧ ((∀ r ∈ (runSecurityAudit config secrets installDir d isWin now).results,
          r.severity = .info ∨ r.severity = .pass)
        → (runSecurityAudit config secrets installDir d isWin now).overallStatus = .pass) := by
  have hov : (runSecurityAudit config secrets installDir d isWin now).overallStatus
      = overallOf ((runSecurityAudit config secrets installDir d isWin now).results) := rfl
  have hspec := overallOf_spec ((runSecurityAudit config secrets installDir d isWin now).results)
  have hlen : (runSecurityAudit config secrets installDir d isWin now).results.length = 8 := by
    have := congrArg List.length
      (runSecurityAudit_check_order config secrets installDir d isWin now)
    simpa using this
  exact ⟨runSecurityAudit_check_order config secrets installDir d isWin now, hlen,
    hov ▸ hspec.1, hov ▸ hspec.2.1, hov ▸ hspec.2.2⟩

/-! ### Auto-fix lemmas (C3, C9) -/

/-- The per-result transformation `autoFixAuditResults` applies when the
permission setter succeeds. -/
def autoFixOne (r : AuditResult) : AuditResult :=
  if r.severity = .pass ∨ r.autoFixable = false then r
  else if r.check = "gateway-auth" then
    { r with fixed := some true, message := "Gateway auth — auto-fix: regenerate token required." }
  else if r.check = "token-entropy" then
    { r with fixed := some true, message := "Token entropy — auto-fix: regenerate token required." }
  else if r.check = "bind-address" then
    { r with fixed := some true, message := "Bind address — auto-fix: set to loopback." }
  else if r.check = "file-permissions" then
    { r with fixed := some true, message := "File permissions corrected." }
  else if r.check = "dm-policy" then
    { r with fixed := some true, message := "DM policy — auto-fix: set to pairing." }
  else if r.check = "sandbox-enabled" then
    { r with fixed := some true, message := "Sandbox — auto-fix: set to non-main." }
  else if r.check = "mdns-mode" then
    { r with fixed := some true, message := "mDNS — auto-fix: set to minimal." }
  else if r.check = "log-redaction" then
    { r with fixed := some true, message := "Log redaction — auto-fix: set to tools." }
  else r

/-- A finding that makes `autoFixAuditResults` invoke the permission setter. -/
def isPermFix (r : AuditResult) : Bool :=
  !(r.severity == .pass) && r.autoFixable && (r.check == "file-permissions")

theorem autoFix_ok (config : DeploymentConfig) (installDir : String) :
    ∀ rs : List AuditResult,
      autoFixAuditResults (fun _ _ => .ok ()) config installDir rs
        = .ok (rs.map autoFixOne, rs.countP isPermFix)
  | [] => rfl
  | r :: rest => by
    have ih := autoFix_ok config installDir rest
    by_cases h1 : r.severity = .pass ∨ r.autoFixable = false
    · have ha : autoFixOne r = r := by simp [autoFixOne, h1]
      have hb : isPermFix r = false := by
        rcases h1 with h | h <;> simp [isPermFix, h]
      simp [autoFixAuditResults, h1, ih, ha, hb, List.countP_cons]
    · rw [not_or] at h1
      obtain ⟨hp, hf⟩ := h1
      rw [Bool.not_eq_false] at hf
      have h1' : ¬(r.severity = .pass ∨ r.autoFixable = false) := by
        rw [not_or, Bool.not_eq_false]
        exact ⟨hp, hf⟩
      by_cases hA : r.check = "gateway-auth"
      · simp [autoFixAuditResults, h1', hA, ih, autoFixOne, isPermFix, hp, hf,
          List.countP_cons]
      by_cases hB : r.check = "token-entropy"
      · simp [autoFixAuditResults, h1', hA, hB, ih, autoFixOne, isPermFix, hp, hf,
          List.countP_cons]
      by_cases hC : r.check = "bind-address"
      · simp [autoFixAuditResults, h1', hA, hB, hC, ih, autoFixOne, isPermFix, hp, hf,
          List.countP_cons]
      by_cases hD : r.check = "file-permissions"
      · simp [autoFixAuditResults, h1', hA, hB, hC, hD, ih, autoFixOne, isPermFix, hp, hf,
          List.countP_cons]
      by_cases hE : r.check = "dm-policy"
      · simp [autoFixAuditResults, h1', hA, hB, hC, hD, hE, ih, autoFixOne, isPermFix, hp, hf,
          List.countP_cons]
      by_cases hF : r.check = "sandbox-enabled"
      · simp [autoFixAuditResults, h1', hA, hB, hC, hD, hE, hF, ih, autoFixOne, isPermFix,
          hp, hf, List.countP_cons]
      by_cases hG : r.check = "mdns-mode"
      · simp [autoFixAuditResults, h1', hA, hB, hC, hD, hE, hF, hG, ih, autoFixOne, isPermFix,
          hp, hf, List.countP_cons]
      by_cases hH : r.check = "log-redaction"
      · simp [autoFixAuditResults, h1', hA, hB, hC, hD, hE, hF, hG, hH, ih, autoFixOne,
          isPermFix, hp, hf, List.countP_cons]
      · simp [autoFixAuditResults, h1', hA, hB, hC, hD, hE, hF, hG, hH, ih, autoFixOne,
          isPermFix, hp, hf, List.countP_cons]

theorem autoFix_error_propagates (e : String) (config : DeploymentConfig) (installDir : String) :
    ∀ rs : List AuditResult, (∃ r ∈ rs, isPermFix r = true) →
      autoFixAuditResults (fun _ _ => .error e) config installDir rs = .error e
  | [] => by
    rintro ⟨r, hr, _⟩
    cases hr
  | r :: rest => by
    rintro ⟨r2, hr2, hperm⟩
    rcases List.mem_cons.mp hr2 with rfl | hmem
    · have hs : (r2.severity == AuditSeverity.pass) = false := by
        simp [isPermFix] at hperm
        simp [hperm.1.1]
      have hp : ¬(r2.severity = .pass) := by
        intro h
        rw [h] at hs
        simp at hs
      have hf : r2.autoFixable = true := by
        simp [isPermFix] at hperm
        exact hperm.1.2
      have hcheck : r2.check = "file-permissions" := by
        simp [isPermFix] at hperm
        exact hperm.2
      have h1' : ¬(r2.severity = .pass ∨ r2.autoFixable = false) := by
        rw [not_or, Bool.not_eq_false]
        exact ⟨hp, hf⟩
      simp [autoFixAuditResults, h1', hcheck]
    · have ihe := autoFix_error_propagates e config installDir rest ⟨r2, hmem, hperm⟩
      by_cases h1 : r.severity = .pass ∨ r.autoFixable = false
      · simp [autoFixAuditResults, h1, ihe]
      · by_cases hD : r.check = "file-permissions"
        · simp [autoFixAuditResults, h1, hD]
        · simp only [autoFixAuditResults, h1, if_false, ihe]
          split_ifs <;> rfl

/-- What `autoFixOne` does to a result whose flags satisfy the audit invariant
and whose check id is one of the eight registered checks. -/
theorem autoFixOne_fixes (r : AuditResult)
    (hfix : r.autoFixable = true ↔ r.severity ≠ .pass)
    (hcheck : r.check ∈ auditCheckIds) :
    (autoFixOne r).severity = r.severity
    ∧ (r.severity ≠ .pass → (autoFixOne r).fixed = some true) := by
  by_cases hp : r.severity = .pass
  · have : autoFixOne r = r := by simp [autoFixOne, hp]
    rw [this]
    exact ⟨rfl, fun h => absurd hp h⟩
  · have hf : r.autoFixable = true := hfix.mpr hp
    have h1' : ¬(r.severity = .pass ∨ r.autoFixable = false) := by
      rw [not_or, Bool.not_eq_false]
      exact ⟨hp, hf⟩
    simp only [auditCheckIds, List.mem_cons, List.not_mem_nil, or_false] at hcheck
    rcases hcheck with h | h | h | h | h | h | h | h <;>
      simp [autoFixOne, h1', h]

/-- Claim C9: every result of `runSecurityAudit` has `autoFixable` true exactly
when its severity is not pass; consequently, running the auto-fix dispatch
with a succeeding permission setter marks every non-pass finding of the report
`fixed = true`. -/
theorem audit_autofixable_iff_not_pass (config : DeploymentConfig)
    (secrets : GeneratedSecrets) (installDir : String) (d : PosixDir)
    (isWin : Bool) (now : String) :
    (∀ r ∈ (runSecurityAudit config secrets installDir d isWin now).results,
        (r.autoFixable = true ↔ r.severity ≠ .pass))
    ∧ ∃ l n, autoFixAuditResults (fun _ _ => .ok ()) config installDir
          (runSecurityAudit config secrets installDir d isWin now).results = .ok (l, n)
        ∧ ∀ r ∈ l, r.severity ≠ .pass → r.fixed = some true := by
  have hinv : ∀ r ∈ (runSecurityAudit config secrets installDir d isWin now).results,
      (r.autoFixable = true ↔ r.severity ≠ .pass) := by
    intro r hr
    simp only [runSecurityAudit, List.mem_cons, List.not_mem_nil, or_false] at hr
    rcases hr with rfl | rfl | rfl | rfl | rfl | rfl | rfl | rfl
    · exact (checkGatewayAuth_shape config secrets).2.2
    · exact (checkTokenEntropy_shape secrets).2.2
    · exact (checkBindAddress_shape config).2.2
    · exact (checkFilePermissions_shape isWin installDir d).2.2
    · exact (checkDmPolicy_shape config).2.2
    · exact (checkSandbox_shape config).2.2
    · exact (checkMdns_shape config).2.2
    · exact (checkLogRedaction_shape config).2.2
  refine ⟨hinv, _, _, autoFix_ok config installDir _, ?_⟩
  intro r' hr'
  obtain ⟨r, hr, rfl⟩ := List.mem_map.mp hr'
  have hcheck : r.check ∈ auditCheckIds := by
    rw [← runSecurityAudit_check_order config secrets installDir d isWin now]
    exact List.mem_map_of_mem (fun x => x.check) hr
  have hone := autoFixOne_fixes r (hinv r hr) hcheck
  intro hnp
  apply hone.2
  rw [← hone.1]
  exact hnp

/-- Claim C3: `autoFixAuditResults` passes through every pass or non-fixable
result unchanged; for a `file-permissions` finding it re-invokes the
permission setter on the install directory (the invocation count equals the
number of such findings) and marks `fixed = true` only when that call
succeeds — when the setter throws, the error propagates and no fixed result
list is produced; every other known non-pass fixable finding is marked
`fixed = true` with a descriptive message while no corrective action runs. -/
theorem autofix_dispatch_spec (config : DeploymentConfig) (installDir : String)
    (rs : List AuditResult) :
    autoFixAuditResults (fun _ _ => .ok ()) config installDir rs
      = .ok (rs.map autoFixOne, rs.countP isPermFix)
    ∧ (∀ r : AuditResult, r.severity = .pass ∨ r.autoFixable = false → autoFixOne r = r)
    ∧ (∀ r : AuditResult, r.severity ≠ .pass → r.autoFixable = true →
        r.check = "file-permissions" →
        autoFixOne r = { r with fixed := some true, message := "File permissions corrected." })
    ∧ (∀ r : AuditResult, r.severity ≠ .pass → r.autoFixable = true →
        r.check ∈ ["gateway-auth", "token-entropy", "bind-address", "dm-policy",
                   "sandbox-enabled", "mdns-mode", "log-redaction"] →
        ((autoFixOne r).fixed = some true ∧ (autoFixOne r).check = r.check
          ∧ (autoFixOne r).severity = r.severity))
    ∧ (∀ e : String, (∃ r ∈ rs, isPermFix r = true) →
        autoFixAuditResults (fun _ _ => .error e) config installDir rs = .error e) := by
  refine ⟨autoFix_ok config installDir rs, ?_, ?_, ?_, ?_⟩
  · intro r h
    simp [autoFixOne, h]
  · intro r hp hf hcheck
    have h1' : ¬(r.severity = .pass ∨ r.autoFixable = false) := by
      rw [not_or, Bool.not_eq_false]
      exact ⟨hp, hf⟩
    simp [autoFixOne, h1', hcheck]
  · intro r hp hf hcheck
    have h1' : ¬(r.severity = .pass ∨ r.autoFixable = false) := by
      rw [not_or, Bool.not_eq_false]
      exact ⟨hp, hf⟩
    simp only [List.mem_cons, List.not_mem_nil, or_false] at hcheck
    rcases hcheck with h | h | h | h | h | h | h <;> simp [autoFixOne, h1', h]
  · intro e hex
    exact autoFix_error_propagates e config installDir rs hex

/-! ### Shared concrete fixtures for witnesses and counterexamples -/

def cfg0 : DeploymentConfig where
  llm := { provider := "anthropic", apiKey := "sk-test", model := none,
           ollama := none, routing := none }
  channels := [{ id := "webchat", enabled := true, token := none, config := none }]
  securityLevel := .L1
  gateway := { bind := .loopback, port := 18789 }
  deployment := { mode := .docker, workspace := "/home/user/ws", installDir := "/opt/openclaw" }
  tls := none
  training := none

def secrets0 : GeneratedSecrets where
  gatewayToken := ⟨List.replicate 64 'a'⟩
  masterEncryptionKey := ⟨List.replicate 64 'b'⟩

def permFinding : AuditResult where
  severity := .critical
  check := "file-permissions"
  message := "File permission issues found: x"
  autoFixable := true
  remediation := none
  fixed := none

def passFinding : AuditResult where
  severity := .pass
  check := "gateway-auth"
  message := "Gateway authentication is enabled."
  autoFixable := false
  remediation := none
  fixed := none

/-- Witness for C3: a critical `file-permissions` finding plus a pass result —
with a succeeding setter the finding is fixed and the setter ran once, and the
pass result is untouched; with a throwing setter the error propagates. -/
theorem autofix_dispatch_spec_witness :
    autoFixAuditResults (fun _ _ => .ok ()) cfg0 "/opt/openclaw" [permFinding, passFinding]
      = .ok ([{ permFinding with
                fixed := some true
                message := "File permissions corrected." }, passFinding], 1)
    ∧ autoFixAuditResults (fun _ _ => .error "EPERM") cfg0 "/opt/openclaw"
        [permFinding, passFinding] = .error "EPERM" := by
  constructor
  · rw [(autofix_dispatch_spec cfg0 "/opt/openclaw" [permFinding, passFinding]).1]
    congr 1
  · exact (autofix_dispatch_spec cfg0 "/opt/openclaw" [permFinding, passFinding]).2.2.2.2
      "EPERM" ⟨permFinding, by simp, by decide⟩

/-! ### Config renderer secret hygiene (C2) -/

/-- Claim C2: the primary JSON config sets the gateway auth token field to the
literal interpolation placeholder; the primary config text does not depend on
the secrets at all (so the `gatewayToken`/`masterEncryptionKey` values never
flow into it), and the literal `gatewayToken` appears only in the
environment-file text. -/
theorem primary_config_secret_hygiene (config : DeploymentConfig)
    (levelDef : SecurityLevelDefinition) (s1 s2 : GeneratedSecrets) :
    ConfigGen.generateOpenClawJson config s1 levelDef
      = ConfigGen.generateOpenClawJson config s2 levelDef
    ∧ (((ConfigGen.buildOpenClawObj config levelDef).getField "gateway").bind
         (fun j => j.getField "auth")).bind (fun j => j.getField "token")
        = some (.str "${OPENCLAW_GATEWAY_TOKEN}")
    ∧ ("OPENCLAW_GATEWAY_TOKEN=" ++ s1.gatewayToken) ∈ ConfigGen.envLines config s1
    ∧ ∀ loaded, (ConfigGen.generateOpenClawConfig loaded config s1).openclawJson
        = (ConfigGen.generateOpenClawConfig loaded config s2).openclawJson := by
  refine ⟨rfl, rfl, ?_, fun loaded => rfl⟩
  simp [ConfigGen.envLines]

/-! ### Compose-file capability keys (C5) -/

theorem append_ne_of_take_ne (p s t : String)
    (h : t.data.take p.data.length ≠ p.data) : p ++ s ≠ t := by
  intro he
  apply h
  rw [← he]
  show (p.data ++ s.data).take p.data.length = p.data
  exact List.take_left p.data s.data

/-- The prefixes of the value-dependent lines of the generator's compose
output. -/
def composeDynKeys : List String :=
  ["# Security level: ", "    user: \"", "      - ", "      - \"",
   "          memory: ", "          cpus: \"", "    pids_limit: ", "      test: "]

/-- A compose line that starts with one of the value-dependent prefixes. -/
def dynLine (s : String) : Prop := ∃ p r, p ∈ composeDynKeys ∧ s = p ++ r

theorem target_not_dyn (t : String)
    (hk : ∀ p ∈ composeDynKeys, t.data.take p.data.length ≠ p.data) : ¬ dynLine t := by
  rintro ⟨p, r, hp, heq⟩
  exact append_ne_of_take_ne p r t (hk p hp) heq.symm

def baseFixed : List String :=
  ["# Generated by openclaw-deploy — do not edit manually", "", "services:", "  openclaw:",
   "    image: ghcr.io/openclaw/openclaw:latest", "    container_name: openclaw",
   "    restart: unless-stopped", "    ports:", "    volumes:", "      - openclaw-data:/app/data"]

def envFixed : List String :=
  ["    env_file:", "    environment:", "      - OPENCLAW_GATEWAY_PORT=${OPENCLAW_GATEWAY_PORT}",
   "      - OLLAMA_HOST=${OLLAMA_HOST}", "      - OLLAMA_MODEL=${OLLAMA_MODEL}",
   "    extra_hosts:", "      - \"host.docker.internal:host-gateway\""]

def tailFixed : List String :=
  ["    deploy:", "      resources:", "        limits:", "    healthcheck:",
   "      interval: 30s", "      timeout: 10s", "      retries: 3", "      start_period: 15s",
   "    logging:", "      driver: json-file", "      options:", "        max-size: \"10m\"",
   "        max-file: \"3\"", "", "volumes:", "  openclaw-data:", "    driver: local"]

theorem shape_composeBase (config : DeploymentConfig) (docker : DockerSecurityConfig) :
    ∀ s ∈ ConfigGen.composeBase config docker, s ∈ baseFixed ∨ dynLine s := by
  intro s hs
  simp only [ConfigGen.composeBase, List.mem_cons, List.not_mem_nil, or_false] at hs
  rcases hs with rfl | rfl | rfl | rfl | rfl | rfl | rfl | rfl | rfl | rfl | rfl | rfl | rfl | rfl
  · left; decide
  · right; exact ⟨"# Security level: ", _, by decide, rfl⟩
  · left; decide
  · left; decide
  · left; decide
  · left; decide
  · left; decide
  · left; decide
  · right; exact ⟨"    user: \"", _, by decide, rfl⟩
  · left; decide
  · right; exact ⟨"      - \"", _, by decide, rfl⟩
  · left; decide
  · right; exact ⟨"      - ", _, by decide, rfl⟩
  · left; decide

theorem shape_composeTraining (config : DeploymentConfig) :
    ∀ s ∈ ConfigGen.composeTraining config, dynLine s := by
  intro s hs
  unfold ConfigGen.composeTraining at hs
  cases htr : config.training with
  | none =>
    rw [htr] at hs
    cases hs
  | some t =>
    rw [htr] at hs
    dsimp only at hs
    by_cases h : t.enabled = true
    · rw [if_pos h, List.mem_singleton] at hs
      exact ⟨"      - ", _, by decide, hs⟩
    · rw [if_neg h] at hs
      cases hs

theorem shape_composeWorkspace (config : DeploymentConfig)
    (levelDef : SecurityLevelDefinition) :
    ∀ s ∈ ConfigGen.composeWorkspace config levelDef, dynLine s := by
  intro s hs
  unfold ConfigGen.composeWorkspace at hs
  by_cases h : levelDef.sandbox.workspaceAccess ≠ WorkspaceAccess.none
  · rw [if_pos h, List.mem_singleton] at hs
    exact ⟨"      - ", _, by decide, hs⟩
  · rw [if_neg h] at hs
    cases hs

theorem shape_composeEnv (config : DeploymentConfig) :
    ∀ s ∈ ConfigGen.composeEnv config, s ∈ envFixed ∨ dynLine s := by
  intro s hs
  unfold ConfigGen.composeEnv at hs
  rcases List.mem_append.mp hs with h | h
  · simp only [List.mem_cons, List.not_mem_nil, or_false] at h
    rcases h with rfl | rfl | rfl | rfl
    · left; decide
    · right; exact ⟨"      - ", _, by decide, rfl⟩
    · left; decide
    · left; decide
  · by_cases hp : config.llm.provider = "ollama"
    · rw [if_pos hp] at h
      simp only [List.mem_cons, List.not_mem_nil, or_false] at h
      rcases h with rfl | rfl | rfl | rfl <;> (left; decide)
    · rw [if_neg hp, List.mem_singleton] at h
      right; exact ⟨"      - ", _, by decide, h⟩

theorem shape_composeReadOnly (docker : DockerSecurityConfig) :
    ∀ s ∈ ConfigGen.composeReadOnly docker, s = "    read_only: true" := by
  intro s hs
  unfold ConfigGen.composeReadOnly at hs
  by_cases h : docker.readOnlyRoot = true
  · rw [if_pos h, List.mem_singleton] at hs
    exact hs
  · rw [if_neg h] at hs
    cases hs

theorem shape_composeCapDrop (docker : DockerSecurityConfig) :
    ∀ s ∈ ConfigGen.composeCapDrop docker, s = "    cap_drop:" ∨ dynLine s := by
  intro s hs
  unfold ConfigGen.composeCapDrop at hs
  by_cases h : docker.capDrop.length > 0
  · rw [if_pos h] at hs
    rcases List.mem_cons.mp hs with rfl | hs
    · exact Or.inl rfl
    · obtain ⟨c, _, rfl⟩ := List.mem_map.mp hs
      exact Or.inr ⟨"      - ", _, by decide, rfl⟩
  · rw [if_neg h] at hs
    cases hs

theorem shape_composeCapAdd (docker : DockerSecurityConfig) :
    ∀ s ∈ ConfigGen.composeCapAdd docker, s = "    cap_add:" ∨ dynLine s := by
  intro s hs
  unfold ConfigGen.composeCapAdd at hs
  by_cases h : docker.capAdd.length > 0
  · rw [if_pos h] at hs
    rcases List.mem_cons.mp hs with rfl | hs
    · exact Or.inl rfl
    · obtain ⟨c, _, rfl⟩ := List.mem_map.mp hs
      exact Or.inr ⟨"      - ", _, by decide, rfl⟩
  · rw [if_neg h] at hs
    cases hs

theorem shape_composeSecOpt (docker : DockerSecurityConfig) :
    ∀ s ∈ ConfigGen.composeSecOpt docker, s = "    security_opt:" ∨ dynLine s := by
  intro s hs
  unfold ConfigGen.composeSecOpt at hs
  by_cases h : docker.securityOpt.length > 0
  · rw [if_pos h] at hs
    rcases List.mem_cons.mp hs with rfl | hs
    · exact Or.inl rfl
    · obtain ⟨c, _, rfl⟩ := List.mem_map.mp hs
      exact Or.inr ⟨"      - ", _, by decide, rfl⟩
  · rw [if_neg h] at hs
    cases hs

theorem shape_composeTmpfs (docker : DockerSecurityConfig) :
    ∀ s ∈ ConfigGen.composeTmpfs docker, s = "    tmpfs:" ∨ dynLine s := by
  intro s hs
  unfold ConfigGen.composeTmpfs at hs
  by_cases h : docker.tmpfs.length > 0
  · rw [if_pos h] at hs
    rcases List.mem_cons.mp hs with rfl | hs
    · exact Or.inl rfl
    · obtain ⟨c, _, rfl⟩ := List.mem_map.mp hs
      exact Or.inr ⟨"      - ", _, by decide, rfl⟩
  · rw [if_neg h] at hs
    cases hs

theorem shape_composeTail (docker : DockerSecurityConfig) (port : Nat) :
    ∀ s ∈ ConfigGen.composeTail docker port, s ∈ tailFixed ∨ dynLine s := by
  intro s hs
  simp only [ConfigGen.composeTail, List.mem_cons, List.not_mem_nil, or_false] at hs
  rcases hs with rfl | rfl | rfl | rfl | rfl | rfl | rfl | rfl | rfl | rfl | rfl | rfl | rfl | rfl
    | rfl | rfl | rfl | rfl | rfl | rfl | rfl | rfl
  · left; decide
  · left; decide
  · left; decide
  · right; exact ⟨"          memory: ", _, by decide, rfl⟩
  · right; exact ⟨"          cpus: \"", _, by decide, rfl⟩
  · right; exact ⟨"    pids_limit: ", _, by decide, rfl⟩
  · left; decide
  · right; exact ⟨"      test: ", _, by decide, rfl⟩
  · left; decide
  · left; decide
  · left; decide
  · left; decide
  · left; decide
  · left; decide
  · left; decide
  · left; decide
  · left; decide
  · left; decide
  · left; decide
  · left; decide
  · left; decide
  · left; decide

theorem composeLines_cases (config : DeploymentConfig) (levelDef : SecurityLevelDefinition)
    (s : String) (hmem : s ∈ ConfigGen.composeLines config levelDef) :
    s ∈ ConfigGen.composeBase config levelDef.docker
    ∨ s ∈ ConfigGen.composeTraining config
    ∨ s ∈ ConfigGen.composeWorkspace config levelDef
    ∨ s ∈ ConfigGen.composeEnv config
    ∨ s ∈ ConfigGen.composeReadOnly levelDef.docker
    ∨ s ∈ ConfigGen.composeCapDrop levelDef.docker
    ∨ s ∈ ConfigGen.composeCapAdd levelDef.docker
    ∨ s ∈ ConfigGen.composeSecOpt levelDef.docker
    ∨ s ∈ ConfigGen.composeTmpfs levelDef.docker
    ∨ s ∈ ConfigGen.composeTail levelDef.docker config.gateway.port := by
  unfold ConfigGen.composeLines at hmem
  simp only [List.mem_append] at hmem
  tauto

/-- Claim C5 (amended): in the docker-compose text rendered by the config
generator (`generator.ts`, the renderer `generateOpenClawConfig` uses), an
empty capability-drop or capability-add list omits the `cap_drop`/`cap_add`
key entirely, a nonempty list emits it, and no line ever carries an empty
array value for these keys. -/
theorem compose_caps_omitted_when_empty (config : DeploymentConfig)
    (levelDef : SecurityLevelDefinition) :
    (levelDef.docker.capDrop = [] →
      "    cap_drop:" ∉ ConfigGen.composeLines config levelDef)
    ∧ (levelDef.docker.capAdd = [] →
      "    cap_add:" ∉ ConfigGen.composeLines config levelDef)
    ∧ (levelDef.docker.capDrop ≠ [] →
      "    cap_drop:" ∈ ConfigGen.composeLines config levelDef)
    ∧ (levelDef.docker.capAdd ≠ [] →
      "    cap_add:" ∈ ConfigGen.composeLines config levelDef)
    ∧ (∀ s ∈ ConfigGen.composeLines config levelDef,
        s ≠ "    cap_drop: []" ∧ s ≠ "    cap_add: []") := by
  refine ⟨?_, ?_, ?_, ?_, ?_⟩
  · intro hcd hmem
    rcases composeLines_cases config levelDef _ hmem with h | h | h | h | h | h | h | h | h | h
    · rcases shape_composeBase config levelDef.docker _ h with hf | hd
      · exact absurd hf (by decide)
      · exact target_not_dyn _ (by decide) hd
    · exact target_not_dyn _ (by decide) (shape_composeTraining config _ h)
    · exact target_not_dyn _ (by decide) (shape_composeWorkspace config levelDef _ h)
    · rcases shape_composeEnv config _ h with hf | hd
      · exact absurd hf (by decide)
      · exact target_not_dyn _ (by decide) hd
    · exact absurd (shape_composeReadOnly levelDef.docker _ h) (by decide)
    · rw [ConfigGen.composeCapDrop, hcd] at h
      simp at h
    · rcases shape_composeCapAdd levelDef.docker _ h with hf | hd
      · exact absurd hf (by decide)
      · exact target_not_dyn _ (by decide) hd
    · rcases shape_composeSecOpt levelDef.docker _ h with hf | hd
      · exact absurd hf (by decide)
      · exact target_not_dyn _ (by decide) hd
    · rcases shape_composeTmpfs levelDef.docker _ h with hf | hd
      · exact absurd hf (by decide)
      · exact target_not_dyn _ (by decide) hd
    · rcases shape_composeTail levelDef.docker config.gateway.port _ h with hf | hd
      · exact absurd hf (by decide)
      · exact target_not_dyn _ (by decide) hd
  · intro hca hmem
    rcases composeLines_cases config levelDef _ hmem with h | h | h | h | h | h | h | h | h | h
    · rcases shape_composeBase config levelDef.docker _ h with hf | hd
      · exact absurd hf (by decide)
      · exact target_not_dyn _ (by decide) hd
    · exact target_not_dyn _ (by decide) (shape_composeTraining config _ h)
    · exact target_not_dyn _ (by decide) (shape_composeWorkspace config levelDef _ h)
    · rcases shape_composeEnv config _ h with hf | hd
      · exact absurd hf (by decide)
      · exact target_not_dyn _ (by decide) hd
    · exact absurd (shape_composeReadOnly levelDef.docker _ h) (by decide)
    · rcases shape_composeCapDrop levelDef.docker _ h with hf | hd
      · exact absurd hf (by decide)
      · exact target_not_dyn _ (by decide) hd
    · rw [ConfigGen.composeCapAdd, hca] at h
      simp at h
    · rcases shape_composeSecOpt levelDef.docker _ h with hf | hd
      · exact absurd hf (by decide)
      · exact target_not_dyn _ (by decide) hd
    · rcases shape_composeTmpfs levelDef.docker _ h with hf | hd
      · exact absurd hf (by decide)
      · exact target_not_dyn _ (by decide) hd
    · rcases shape_composeTail levelDef.docker config.gateway.port _ h with hf | hd
      · exact absurd hf (by decide)
      · exact target_not_dyn _ (by decide) hd
  · intro h
    cases hcd : levelDef.docker.capDrop with
    | nil => exact absurd hcd h
    | cons a l =>
      have hsec : "    cap_drop:" ∈ ConfigGen.composeCapDrop levelDef.docker := by
        unfold ConfigGen.composeCapDrop
        rw [hcd, if_pos (by simp)]
        exact List.mem_cons_self _ _
      unfold ConfigGen.composeLines
      exact List.mem_append_left _ (List.mem_append_left _ (List.mem_append_left _
        (List.mem_append_left _ (List.mem_append_right _ hsec))))
  · intro h
    cases hca : levelDef.docker.capAdd with
    | nil => exact absurd hca h
    | cons a l =>
      have hsec : "    cap_add:" ∈ ConfigGen.composeCapAdd levelDef.docker := by
        unfold ConfigGen.composeCapAdd
        rw [hca, if_pos (by simp)]
        exact List.mem_cons_self _ _
      unfold ConfigGen.composeLines
      exact List.mem_append_left _ (List.mem_append_left _ (List.mem_append_left _
        (List.mem_append_right _ hsec)))
  · intro s hmem
    have hdyn : dynLine s → s ≠ "    cap_drop: []" ∧ s ≠ "    cap_add: []" := by
      rintro ⟨p, r, hp, rfl⟩
      have hk := (by decide :
        ∀ p ∈ composeDynKeys,
          ("    cap_drop: []").data.take p.data.length ≠ p.data
          ∧ ("    cap_add: []").data.take p.data.length ≠ p.data)
      exact ⟨append_ne_of_take_ne p r _ (hk p hp).1, append_ne_of_take_ne p r _ (hk p hp).2⟩
    rcases composeLines_cases config levelDef _ hmem with h | h | h | h | h | h | h | h | h | h
    · rcases shape_composeBase config levelDef.docker _ h with hf | hd
      · exact (by decide : ∀ x ∈ baseFixed,
          x ≠ "    cap_drop: []" ∧ x ≠ "    cap_add: []") s hf
      · exact hdyn hd
    · exact hdyn (shape_composeTraining config _ h)
    · exact hdyn (shape_composeWorkspace config levelDef _ h)
    · rcases shape_composeEnv config _ h with hf | hd
      · exact (by decide : ∀ x ∈ envFixed,
          x ≠ "    cap_drop: []" ∧ x ≠ "    cap_add: []") s hf
      · exact hdyn hd
    · rw [shape_composeReadOnly levelDef.docker _ h]
      decide
    · rcases shape_composeCapDrop levelDef.docker _ h with rfl | hd
      · decide
      · exact hdyn hd
    · rcases shape_composeCapAdd levelDef.docker _ h with rfl | hd
      · decide
      · exact hdyn hd
    · rcases shape_composeSecOpt levelDef.docker _ h with rfl | hd
      · decide
      · exact hdyn hd
    · rcases shape_composeTmpfs levelDef.docker _ h with rfl | hd
      · decide
      · exact hdyn hd
    · rcases shape_composeTail levelDef.docker config.gateway.port _ h with hf | hd
      · exact (by decide : ∀ x ∈ tailFixed,
          x ≠ "    cap_drop: []" ∧ x ≠ "    cap_add: []") s hf
      · exact hdyn hd

/-- Witness for C5 (amended) at the canonical L1 definition, whose capability
lists are empty, and at the canonical L2 definition, whose lists are not. -/
theorem compose_caps_omitted_when_empty_witness :
    "    cap_drop:" ∉ ConfigGen.composeLines cfg0 (SECURITY_LEVELS .L1)
    ∧ "    cap_add:" ∉ ConfigGen.composeLines cfg0 (SECURITY_LEVELS .L1)
    ∧ "    cap_drop:" ∈ ConfigGen.composeLines cfg0 (SECURITY_LEVELS .L2) :=
  ⟨(compose_caps_omitted_when_empty cfg0 (SECURITY_LEVELS .L1)).1 (by decide),
   (compose_caps_omitted_when_empty cfg0 (SECURITY_LEVELS .L1)).2.1 (by decide),
   (compose_caps_omitted_when_empty cfg0 (SECURITY_LEVELS .L2)).2.2.1 (by decide)⟩

/-- Structural splitting at a separator character (JS `s.split(sep)`). -/
def splitOnChar (sep : Char) : List Char → List (List Char)
  | [] => [[]]
  | c :: rest =>
    match splitOnChar sep rest with
    | [] => if c = sep then [[], [c]] else [[c]]
    | h :: t => if c = sep then [] :: h :: t else (c :: h) :: t

/-- The lines of a rendered text. -/
def jsLines (s : String) : List String := (splitOnChar (Char.ofNat 10) s.data).map List.asString

/-- Counterexample to C5 as stated: the repository's other docker-compose
renderer (`compose-generator.ts`) — one of the claim's cited sources — always
emits the `cap_drop:` and `cap_add:` keys, and for level L1, whose canonical
capability lists are both empty, it substitutes the default capability set
CHOWN/SETUID/SETGID under `cap_add:` instead of omitting the key. -/
theorem compose_generator_emits_caps_for_L1 :
    (SECURITY_LEVELS .L1).docker.capDrop = []
    ∧ (SECURITY_LEVELS .L1).docker.capAdd = []
    ∧ (jsLines (ComposeGen.generateDockerCompose cfg0 secrets0 .L1)).contains
        "    cap_drop:" = true
    ∧ (jsLines (ComposeGen.generateDockerCompose cfg0 secrets0 .L1)).contains
        "    cap_add:" = true
    ∧ (jsLines (ComposeGen.generateDockerCompose cfg0 secrets0 .L1)).contains
        "      - CHOWN" = true := by
  decide

/-- Witness for C1 at a concrete config, secrets and clean on-disk state. -/
theorem audit_order_and_status_dominance_witness :
    (runSecurityAudit cfg0 secrets0 "/opt/openclaw"
        (FsState.toPosix ⟨0o700, [], fun _ => 0o600⟩) false
        "2026-01-01T00:00:00.000Z").results.map (fun r => r.check) = auditCheckIds :=
  (audit_order_and_status_dominance cfg0 secrets0 "/opt/openclaw"
    (FsState.toPosix ⟨0o700, [], fun _ => 0o600⟩) false "2026-01-01T00:00:00.000Z").1

/-- Witness for C9 at a concrete config, secrets and clean on-disk state. -/
theorem audit_autofixable_iff_not_pass_witness :
    ∀ r ∈ (runSecurityAudit cfg0 secrets0 "/opt/openclaw"
        (FsState.toPosix ⟨0o700, [], fun _ => 0o600⟩) false
        "2026-01-01T00:00:00.000Z").results, (r.autoFixable = true ↔ r.severity ≠ .pass) :=
  (audit_autofixable_iff_not_pass cfg0 secrets0 "/opt/openclaw"
    (FsState.toPosix ⟨0o700, [], fun _ => 0o600⟩) false "2026-01-01T00:00:00.000Z").1

/-- Witness for C2 at a concrete config and secrets pair. -/
theorem primary_config_secret_hygiene_witness :
    ("OPENCLAW_GATEWAY_TOKEN=" ++ secrets0.gatewayToken) ∈ ConfigGen.envLines cfg0 secrets0 :=
  (primary_config_secret_hygiene cfg0 levelL2 secrets0 secrets0).2.2.1

end OpenClaw
